import Mathlib

/-!
# Smooth: real-time-clock drivers (DS3231, PCF8563) and their utility functions

A shallow embedding of

* `lib/smooth/core/rtc/rtc.cpp` and `lib/smooth/core/io/RtcDevice.cpp`
  (`bcd_to_decimal`, `decimal_to_bcd`, `number_of_days_in_month`,
  `validate_time`, `validate_year`; the two files hold the same function bodies),
* `lib/smooth/application/io/i2c/DS3231.cpp` and
  `lib/smooth/application/io/i2c/PCF8563.cpp` (`get_rtc_time`, `set_rtc_time`,
  the alarm getters and setters, the alarm flags, the square-wave frequency and
  the register helpers they call),
* the time strings of `rtc.cpp` (`add_colon_zero_padding`,
  `get_12hr_time_string`, `get_24hr_time_string`),
* the event queue and the task runner, whose code is not among the sources
  (`Task.h` holds declarations only) and which follow the spec,
* the motor driver `lib/smooth/application/io/motor_driver/L289N.cpp` and the
  tick of its test application `test/l289n_test/l289n_test.cpp`.

Machine integers are natural numbers; a cast to `uint8_t` is written `% 256`.
The enumerations `DayOfWeek` and `Month` are `enum class ... : uint8_t`; the
drivers build their values with `static_cast` from register contents, so they are
embedded as their underlying byte, with the enumerators as named constants.
Reference parameters (`RtcTime&`, `uint8_t&`, `bool&`) become returned values.
-/

namespace Smooth

/-! ## Data model (`rtc.h`, `RtcDevice.h`) -/

namespace DayOfWeek

def Sunday : Nat := 0
def Monday : Nat := 1
def Tuesday : Nat := 2
def Wednesday : Nat := 3
def Thursday : Nat := 4
def Friday : Nat := 5
def Saturday : Nat := 6

end DayOfWeek

namespace Month

def January : Nat := 0
def February : Nat := 1
def March : Nat := 2
def April : Nat := 3
def May : Nat := 4
def June : Nat := 5
def July : Nat := 6
def August : Nat := 7
def September : Nat := 8
def October : Nat := 9
def November : Nat := 10
def December : Nat := 11

end Month

/-- The struct `RtcTime`; `weekdays` and `months` hold the underlying byte of the
enumeration, `years` is a `uint16_t`, the other fields are `uint8_t`. -/
structure RtcTime where
  seconds : Nat
  minutes : Nat
  hours24 : Nat
  days : Nat
  weekdays : Nat
  months : Nat
  years : Nat
deriving DecidableEq

/-! ## Utility functions (`rtc.cpp`, `RtcDevice.cpp`) -/

/-- The function `bcd_to_decimal(uint8_t bcd)`:
`static_cast<uint8_t>((10 * ((bcd & 0xf0) >> 4)) + (bcd & 0xf))`. -/
def bcd_to_decimal (bcd : Nat) : Nat :=
  ((10 * ((bcd &&& 0xf0) >>> 4)) + (bcd &&& 0xf)) % 256

/-- The function `decimal_to_bcd(uint8_t decimal)`:
`static_cast<uint8_t>(((decimal / 10) << 4) | (decimal % 10))`. -/
def decimal_to_bcd (decimal : Nat) : Nat :=
  (((decimal / 10) <<< 4) ||| (decimal % 10)) % 256

/-- The function `number_of_days_in_month(Month month, uint16_t year)`: `days`
starts at 31, is set to 30 for the four short months, and for February to 29 or
28 by the leap-year test. -/
def number_of_days_in_month (month year : Nat) : Nat :=
  let days := 31
  let days :=
    if (month == Month.April) || (month == Month.June) || (month == Month.September)
        || (month == Month.November) then 30 else days
  if month == Month.February then
    (if (year % 4 == 0 && year % 100 != 0) || (year % 400 == 0) then 29 else 28)
  else days

/-- The function `validate_time(uint8_t& time, err_msg, min_limit, max_limit)`;
the result is the value of `time` after the call (the log line is not modelled). -/
def validate_time (time min_limit max_limit : Nat) : Nat :=
  if decide (time > max_limit) || decide (time < min_limit) then min_limit else time

/-- The function `validate_year(uint16_t& year)`; the result is the value of
`year` after the call. -/
def validate_year (year : Nat) : Nat :=
  if decide (year > 2099) || decide (year < 2000) then 2000 else year

/-! ## The I2C bus -/

/-- Modelled from the spec: `I2CMasterDevice` (its `read` and `write`) is not among
the sources. A device over a bus state `σ` offers
`read s reg len`, the result flag of `read(address, reg, rd_data)` together with
the contents of the buffer after the call (index to byte), and
`write s data`, the result flag of `write(address, data)` together with the bus
state after the call; `data` starts with the register address. -/
structure I2CMasterDevice (σ : Type) where
  read : σ → Nat → Nat → Bool × (Nat → Nat)
  write : σ → List Nat → Bool × σ

/-- Modelled from the spec: the chip as a register file that stores what is
written. The state maps a register address to its byte; a read always succeeds
and delivers the registers from `reg` on; a write always succeeds and stores the
bytes after the leading register address in consecutive registers. -/
def regFile : I2CMasterDevice (Nat → Nat) where
  read := fun regs reg _ => (true, fun i => regs (reg + i))
  write := fun regs data =>
    match data with
    | [] => (true, regs)
    | reg :: bytes =>
      (true, fun r => if reg ≤ r ∧ r < reg + bytes.length then bytes.getD (r - reg) 0 else regs r)

/-- Whether a byte is packed BCD: both nibbles are at most 9. -/
def isPackedBcd (b : Nat) : Prop :=
  b < 256 ∧ b >>> 4 ≤ 9 ∧ b &&& 0x0F ≤ 9

instance (b : Nat) : Decidable (isPackedBcd b) := by
  unfold isPackedBcd; infer_instance

/-! ## DS3231 (`DS3231.cpp`) -/

namespace DS3231

namespace Rtc3231Registers

def Seconds : Nat := 0x00
def Control : Nat := 0x0E
def Status : Nat := 0x0F

end Rtc3231Registers

namespace Rtc3231StatusRegisterBits

def A1F : Nat := 1 <<< 0
def A2F : Nat := 1 <<< 1
def BUSY : Nat := 1 <<< 2
def EN32KHZ : Nat := 1 <<< 3
def OSF : Nat := 1 <<< 7

end Rtc3231StatusRegisterBits

variable {σ : Type}

/-- The method `DS3231::set_reg(reg, val)`: writes `{reg, val}`. -/
def set_reg (dev : I2CMasterDevice σ) (s : σ) (reg val : Nat) : Bool × σ :=
  dev.write s [reg, val]

/-- The method `DS3231::get_reg(reg, val)`: a one-byte read; `val` is `rd_data[0]`
whatever the result of the read. -/
def get_reg (dev : I2CMasterDevice σ) (s : σ) (reg : Nat) : Bool × Nat :=
  let rd := dev.read s reg 1
  (rd.1, rd.2 0 % 256)

/-- The method `DS3231::clear_reg_bits(reg, bits)`:
`val = val & static_cast<uint8_t>(~bits); return res && set_reg(reg, val);`
(the write is skipped when the read failed). -/
def clear_reg_bits (dev : I2CMasterDevice σ) (s : σ) (reg bits : Nat) : Bool × σ :=
  let r := get_reg dev s reg
  let val := r.2 &&& ((bits ^^^ 0xFF) % 256)
  if r.1 then set_reg dev s reg val else (false, s)

/-- The method `DS3231::get_osf(flag)`: `flag = val & OSF`, converted to `bool`. -/
def get_osf (dev : I2CMasterDevice σ) (s : σ) : Bool × Bool :=
  let r := get_reg dev s Rtc3231Registers.Status
  (r.1, decide (r.2 &&& Rtc3231StatusRegisterBits.OSF ≠ 0))

/-- The method `DS3231::get_rtc_time(rtc_time)`: the returned flag and the value
of `rtc_time` after the call. -/
def get_rtc_time (dev : I2CMasterDevice σ) (s : σ) (rtc_time : RtcTime) : Bool × RtcTime :=
  let rd := dev.read s Rtc3231Registers.Seconds 7
  let rd_data := rd.2
  let osf := get_osf dev s
  let res := rd.1 && osf.1
  let oscillator_stopped := osf.2
  let rtc_time :=
    if res then
      if oscillator_stopped then rtc_time
      else
        { seconds := bcd_to_decimal (rd_data 0 &&& 0x7F)
          minutes := bcd_to_decimal (rd_data 1 &&& 0x7F)
          hours24 := bcd_to_decimal (rd_data 2 &&& 0x3F)
          weekdays := bcd_to_decimal (rd_data 3 &&& 0x07)
          days := bcd_to_decimal (rd_data 4 &&& 0x3F)
          months := bcd_to_decimal (rd_data 5 &&& 0x1F)
          years := (2000 + bcd_to_decimal (rd_data 6)) % 65536 }
    else rtc_time
  (res && !oscillator_stopped, rtc_time)

/-- The validation block at the head of `set_rtc_time`. -/
def validate_rtc_time (rtc_time : RtcTime) : RtcTime :=
  let rtc_time := { rtc_time with seconds := validate_time rtc_time.seconds 0 59 }
  let rtc_time := { rtc_time with minutes := validate_time rtc_time.minutes 0 59 }
  let rtc_time := { rtc_time with hours24 := validate_time rtc_time.hours24 0 23 }
  let rtc_time := { rtc_time with years := validate_year rtc_time.years }
  { rtc_time with
    days := validate_time rtc_time.days 1
      (number_of_days_in_month rtc_time.months rtc_time.years) }

/-- The vector `data` that `DS3231::set_rtc_time` hands to `write`, built from the
validated time: the register address and the seven time bytes. -/
def rtc_time_data (rtc_time : RtcTime) : List Nat :=
  [ Rtc3231Registers.Seconds,
    decimal_to_bcd rtc_time.seconds,
    decimal_to_bcd rtc_time.minutes,
    decimal_to_bcd rtc_time.hours24,
    rtc_time.weekdays % 256,
    decimal_to_bcd rtc_time.days,
    decimal_to_bcd (rtc_time.months % 256),
    decimal_to_bcd (Int.toNat (((rtc_time.years : Int) - 2000) % 256)) ]

/-- The method `DS3231::set_rtc_time(rtc_time)`: the returned flag, the value of
`rtc_time` after the call and the bus state after the call. -/
def set_rtc_time (dev : I2CMasterDevice σ) (s : σ) (rtc_time : RtcTime) :
    Bool × RtcTime × σ :=
  let rtc_time := validate_rtc_time rtc_time
  let w := dev.write s (rtc_time_data rtc_time)
  if w.1 then
    let c := clear_reg_bits dev w.2 Rtc3231Registers.Status Rtc3231StatusRegisterBits.OSF
    (c.1, rtc_time, c.2)
  else (false, rtc_time, w.2)

end DS3231

/-! ## PCF8563 (`PCF8563.cpp`) -/

namespace PCF8563

namespace Rtc8563Register

def Seconds : Nat := 0x02

end Rtc8563Register

variable {σ : Type}

/-- The method `PCF8563::get_rtc_time(rtc_time)`: the returned flag and the value
of `rtc_time` after the call. -/
def get_rtc_time (dev : I2CMasterDevice σ) (s : σ) (rtc_time : RtcTime) : Bool × RtcTime :=
  let rd := dev.read s Rtc8563Register.Seconds 7
  let res := rd.1
  let rd_data := rd.2
  let is_time_valid := decide (((rd_data 0 &&& 0x80) >>> 7) = 0)
  let rtc_time :=
    if res && is_time_valid then
      { seconds := bcd_to_decimal (rd_data 0 &&& 0x7F)
        minutes := bcd_to_decimal (rd_data 1 &&& 0x7F)
        hours24 := bcd_to_decimal (rd_data 2 &&& 0x3F)
        days := bcd_to_decimal (rd_data 3 &&& 0x3F)
        weekdays := bcd_to_decimal (rd_data 4 &&& 0x07)
        months := bcd_to_decimal (rd_data 5 &&& 0x1F)
        years := (2000 + bcd_to_decimal (rd_data 6)) % 65536 }
    else rtc_time
  (res && is_time_valid, rtc_time)

/-- The validation block at the head of `set_rtc_time`. -/
def validate_rtc_time (rtc_time : RtcTime) : RtcTime :=
  let rtc_time := { rtc_time with seconds := validate_time rtc_time.seconds 0 59 }
  let rtc_time := { rtc_time with minutes := validate_time rtc_time.minutes 0 59 }
  let rtc_time := { rtc_time with hours24 := validate_time rtc_time.hours24 0 23 }
  let rtc_time := { rtc_time with years := validate_year rtc_time.years }
  { rtc_time with
    days := validate_time rtc_time.days 1
      (number_of_days_in_month rtc_time.months rtc_time.years) }

/-- The vector `data` that `PCF8563::set_rtc_time` hands to `write`, built from
the validated time: the register address and the seven time bytes. -/
def rtc_time_data (rtc_time : RtcTime) : List Nat :=
  [ Rtc8563Register.Seconds,
    decimal_to_bcd rtc_time.seconds,
    decimal_to_bcd rtc_time.minutes,
    decimal_to_bcd rtc_time.hours24,
    decimal_to_bcd rtc_time.days,
    rtc_time.weekdays % 256,
    decimal_to_bcd (rtc_time.months % 256),
    decimal_to_bcd (Int.toNat (((rtc_time.years : Int) - 2000) % 256)) ]

/-- The method `PCF8563::set_rtc_time(rtc_time)`: the returned flag, the value of
`rtc_time` after the call and the bus state after the call. -/
def set_rtc_time (dev : I2CMasterDevice σ) (s : σ) (rtc_time : RtcTime) :
    Bool × RtcTime × σ :=
  let rtc_time := validate_rtc_time rtc_time
  let w := dev.write s (rtc_time_data rtc_time)
  (w.1, rtc_time, w.2)

end PCF8563

/-! ## Sample values and the claim-side description of validation -/

/-- A sample time: the one the DS3231 test application sets (Tuesday 25 February
2020, 13:11:00). -/
def sampleTime : RtcTime :=
  { seconds := 0, minutes := 11, hours24 := 13, days := 25,
    weekdays := DayOfWeek.Tuesday, months := Month.February, years := 2020 }

/-- A second time, used as the prior content of the caller's `RtcTime`. -/
def otherTime : RtcTime :=
  { seconds := 7, minutes := 8, hours24 := 9, days := 10,
    weekdays := DayOfWeek.Friday, months := Month.June, years := 2031 }

/-- The validated time in the words of the claim: seconds or minutes above 59 and
hours above 23 become 0, a year outside 2000..2099 becomes 2000, and then a day
outside 1..number_of_days_in_month(months, validated year) becomes 1; weekdays
and months are kept. -/
def validated_time_spec (t : RtcTime) : RtcTime :=
  let year := if 2000 ≤ t.years ∧ t.years ≤ 2099 then t.years else 2000
  { seconds := if t.seconds > 59 then 0 else t.seconds
    minutes := if t.minutes > 59 then 0 else t.minutes
    hours24 := if t.hours24 > 23 then 0 else t.hours24
    years := year
    days := if 1 ≤ t.days ∧ t.days ≤ number_of_days_in_month t.months year then t.days else 1
    weekdays := t.weekdays
    months := t.months }

/-- A time whose weekday byte is 10, outside Sunday..Saturday. -/
def badWeekdayTime : RtcTime :=
  { seconds := 0, minutes := 11, hours24 := 13, days := 25,
    weekdays := 10, months := Month.February, years := 2020 }

/-- A time with every validated field out of range. -/
def outOfRangeTime : RtcTime :=
  { seconds := 60, minutes := 75, hours24 := 24, days := 30,
    weekdays := DayOfWeek.Tuesday, months := Month.February, years := 1999 }

/-! ## Alarm times (`rtc.h`) -/

/-- The struct `AlarmTime`; `weekday` holds the underlying byte of `DayOfWeek`, the
other values are `uint8_t`, the enable flags are `bool` (true = enable). -/
structure AlarmTime where
  ena_alrm_second : Bool
  second : Nat
  ena_alrm_minute : Bool
  minute : Nat
  ena_alrm_hour : Bool
  hour24 : Nat
  ena_alrm_day : Bool
  day : Nat
  ena_alrm_weekday : Bool
  weekday : Nat
deriving DecidableEq

/-- The constructor `AlarmTime()` of `rtc.h`: every flag false, second, minute and
hour 0, day 1, weekday Monday. -/
def AlarmTime.default_constructed : AlarmTime :=
  { ena_alrm_second := false, second := 0, ena_alrm_minute := false, minute := 0,
    ena_alrm_hour := false, hour24 := 0, ena_alrm_day := false, day := 1,
    ena_alrm_weekday := false, weekday := DayOfWeek.Monday }

/-- The operator `AlarmTime::operator==`: the conjunction of the ten field
comparisons, in the order of the source. -/
def AlarmTime.op_eq (lhs rhs : AlarmTime) : Bool :=
  (lhs.ena_alrm_second == rhs.ena_alrm_second) && (lhs.second == rhs.second)
    && (lhs.ena_alrm_minute == rhs.ena_alrm_minute) && (lhs.minute == rhs.minute)
    && (lhs.ena_alrm_hour == rhs.ena_alrm_hour) && (lhs.hour24 == rhs.hour24)
    && (lhs.ena_alrm_day == rhs.ena_alrm_day) && (lhs.day == rhs.day)
    && (lhs.ena_alrm_weekday == rhs.ena_alrm_weekday) && (lhs.weekday == rhs.weekday)

/-! ## DS3231 alarms, flags and square wave (`DS3231.cpp`) -/

namespace DS3231

namespace Rtc3231Registers

def SecondsAlarm1 : Nat := 0x07
def MinutesAlarm2 : Nat := 0x0B

end Rtc3231Registers

namespace Rtc3231SquareWaveFreqs

def F1HZ : Nat := 0
def F1KHZ : Nat := 1
def F4KHZ : Nat := 2
def F8KHZ : Nat := 3

end Rtc3231SquareWaveFreqs

variable {σ : Type}

/-- The method `DS3231::get_alarm1_time(alarm_time)`: the returned flag and the
value of `alarm_time` after the call. An enable flag is `(~rd_data[i] & 0x80)`
converted to `bool`; bit 6 of the fourth byte selects weekday or date. -/
def get_alarm1_time (dev : I2CMasterDevice σ) (s : σ) (alarm_time : AlarmTime) :
    Bool × AlarmTime :=
  let rd := dev.read s Rtc3231Registers.SecondsAlarm1 4
  let rd_data := rd.2
  if rd.1 then
    let alarm_time :=
      { alarm_time with
        ena_alrm_second := decide ((rd_data 0 ^^^ 0xFF) &&& 0x80 ≠ 0)
        second := bcd_to_decimal (rd_data 0 &&& 0x7F)
        ena_alrm_minute := decide ((rd_data 1 ^^^ 0xFF) &&& 0x80 ≠ 0)
        minute := bcd_to_decimal (rd_data 1 &&& 0x7F)
        ena_alrm_hour := decide ((rd_data 2 ^^^ 0xFF) &&& 0x80 ≠ 0)
        hour24 := bcd_to_decimal (rd_data 2 &&& 0x3F) }
    if rd_data 3 &&& 0x40 ≠ 0 then
      (true, { alarm_time with
        ena_alrm_weekday := decide ((rd_data 3 ^^^ 0xFF) &&& 0x80 ≠ 0)
        weekday := bcd_to_decimal (rd_data 3 &&& 0x07)
        ena_alrm_day := false })
    else
      (true, { alarm_time with
        ena_alrm_day := decide ((rd_data 3 ^^^ 0xFF) &&& 0x80 ≠ 0)
        day := bcd_to_decimal (rd_data 3 &&& 0x3F)
        ena_alrm_weekday := false })
  else (false, alarm_time)

/-- The fourth alarm byte that `set_alarm1_time` and `set_alarm2_time` push: the
date with DY/DT = 0 when `ena_alrm_day`, otherwise the weekday with DY/DT = 1. -/
def alarm_day_byte (alarm_time : AlarmTime) : Nat :=
  if alarm_time.ena_alrm_day then
    ((decimal_to_bcd alarm_time.day &&& 0xBF)
      ||| (if alarm_time.ena_alrm_day then 0x00 else 0x80)) % 256
  else
    (decimal_to_bcd (alarm_time.weekday % 256)
      ||| (if alarm_time.ena_alrm_weekday then 0x00 else 0x80) ||| 0x40) % 256

/-- The method `DS3231::set_alarm1_time(alarm_time)`: the returned flag, the value
of `alarm_time` after the call and the bus state after the call. The local
`weekday` is validated and then not used: the byte is built from
`alarm_time.weekday`. -/
def set_alarm1_time (dev : I2CMasterDevice σ) (s : σ) (alarm_time : AlarmTime) :
    Bool × AlarmTime × σ :=
  let alarm_time := { alarm_time with second := validate_time alarm_time.second 0 59 }
  let alarm_time := { alarm_time with minute := validate_time alarm_time.minute 0 59 }
  let alarm_time := { alarm_time with hour24 := validate_time alarm_time.hour24 0 23 }
  let alarm_time := { alarm_time with day := validate_time alarm_time.day 1 31 }
  let _weekday := validate_time (alarm_time.weekday % 256) 1 7
  let data :=
    [ Rtc3231Registers.SecondsAlarm1,
      (decimal_to_bcd alarm_time.second
        ||| (if alarm_time.ena_alrm_second then 0x00 else 0x80)) % 256,
      (decimal_to_bcd alarm_time.minute
        ||| (if alarm_time.ena_alrm_minute then 0x00 else 0x80)) % 256,
      (decimal_to_bcd alarm_time.hour24
        ||| (if alarm_time.ena_alrm_hour then 0x00 else 0x80)) % 256,
      alarm_day_byte alarm_time ]
  let w := dev.write s data
  (w.1, alarm_time, w.2)

/-- The method `DS3231::get_alarm2_time(alarm_time)`: as alarm 1 without the
seconds byte. -/
def get_alarm2_time (dev : I2CMasterDevice σ) (s : σ) (alarm_time : AlarmTime) :
    Bool × AlarmTime :=
  let rd := dev.read s Rtc3231Registers.MinutesAlarm2 3
  let rd_data := rd.2
  if rd.1 then
    let alarm_time :=
      { alarm_time with
        ena_alrm_minute := decide ((rd_data 0 ^^^ 0xFF) &&& 0x80 ≠ 0)
        minute := bcd_to_decimal (rd_data 0 &&& 0x7F)
        ena_alrm_hour := decide ((rd_data 1 ^^^ 0xFF) &&& 0x80 ≠ 0)
        hour24 := bcd_to_decimal (rd_data 1 &&& 0x3F) }
    if rd_data 2 &&& 0x40 ≠ 0 then
      (true, { alarm_time with
        ena_alrm_weekday := decide ((rd_data 2 ^^^ 0xFF) &&& 0x80 ≠ 0)
        weekday := bcd_to_decimal (rd_data 2 &&& 0x07)
        ena_alrm_day := false })
    else
      (true, { alarm_time with
        ena_alrm_day := decide ((rd_data 2 ^^^ 0xFF) &&& 0x80 ≠ 0)
        day := bcd_to_decimal (rd_data 2 &&& 0x3F)
        ena_alrm_weekday := false })
  else (false, alarm_time)

/-- The method `DS3231::set_alarm2_time(alarm_time)`: as alarm 1 without the
seconds byte. -/
def set_alarm2_time (dev : I2CMasterDevice σ) (s : σ) (alarm_time : AlarmTime) :
    Bool × AlarmTime × σ :=
  let alarm_time := { alarm_time with minute := validate_time alarm_time.minute 0 59 }
  let alarm_time := { alarm_time with hour24 := validate_time alarm_time.hour24 0 23 }
  let alarm_time := { alarm_time with day := validate_time alarm_time.day 1 31 }
  let _weekday := validate_time (alarm_time.weekday % 256) 1 7
  let data :=
    [ Rtc3231Registers.MinutesAlarm2,
      (decimal_to_bcd alarm_time.minute
        ||| (if alarm_time.ena_alrm_minute then 0x00 else 0x80)) % 256,
      (decimal_to_bcd alarm_time.hour24
        ||| (if alarm_time.ena_alrm_hour then 0x00 else 0x80)) % 256,
      alarm_day_byte alarm_time ]
  let w := dev.write s data
  (w.1, alarm_time, w.2)

/-- The method `DS3231::set_reg_bits(reg, bits)`:
`val |= bits; return res && set_reg(reg, val);`. -/
def set_reg_bits (dev : I2CMasterDevice σ) (s : σ) (reg bits : Nat) : Bool × σ :=
  let r := get_reg dev s reg
  let val := (r.2 ||| bits) % 256
  if r.1 then set_reg dev s reg val else (false, s)

/-- The method `DS3231::is_alarm1_flag_active(alarm_flag)`: the returned flag and
`alarm_flag`, which is `val & A1F` converted to `bool`. -/
def is_alarm1_flag_active (dev : I2CMasterDevice σ) (s : σ) : Bool × Bool :=
  let r := get_reg dev s Rtc3231Registers.Status
  (r.1, decide (r.2 &&& Rtc3231StatusRegisterBits.A1F ≠ 0))

/-- The method `DS3231::clear_alarm1_flag()`. -/
def clear_alarm1_flag (dev : I2CMasterDevice σ) (s : σ) : Bool × σ :=
  clear_reg_bits dev s Rtc3231Registers.Status Rtc3231StatusRegisterBits.A1F

/-- The method `DS3231::is_alarm2_flag_active(alarm_flag)`. -/
def is_alarm2_flag_active (dev : I2CMasterDevice σ) (s : σ) : Bool × Bool :=
  let r := get_reg dev s Rtc3231Registers.Status
  (r.1, decide (r.2 &&& Rtc3231StatusRegisterBits.A2F ≠ 0))

/-- The method `DS3231::clear_alarm2_flag()`. -/
def clear_alarm2_flag (dev : I2CMasterDevice σ) (s : σ) : Bool × σ :=
  clear_reg_bits dev s Rtc3231Registers.Status Rtc3231StatusRegisterBits.A2F

/-- The method `DS3231::set_square_wave_freq(freq)`:
`set_reg_bits(Control, static_cast<uint8_t>(freq << 3))`. -/
def set_square_wave_freq (dev : I2CMasterDevice σ) (s : σ) (freq : Nat) : Bool × σ :=
  set_reg_bits dev s Rtc3231Registers.Control (((freq % 256) <<< 3) % 256)

/-- The method `DS3231::get_square_wave_freq(freq)`: the returned flag and `freq`,
which is `(val & 0x1F) >> 3`. -/
def get_square_wave_freq (dev : I2CMasterDevice σ) (s : σ) : Bool × Nat :=
  let r := get_reg dev s Rtc3231Registers.Control
  (r.1, (r.2 &&& 0x1F) >>> 3)

end DS3231

/-! ## PCF8563 alarm (`PCF8563.cpp`) -/

namespace PCF8563

namespace Rtc8563Register

def Months : Nat := 0x07
def Years : Nat := 0x08
def MinuteAlarm : Nat := 0x09

end Rtc8563Register

variable {σ : Type}

/-- The method `PCF8563::get_alarm_time(alarm_time)`: the returned flag and the
value of `alarm_time` after the call. An enable flag is `(rd_data[i] & 0x80) >> 7`
converted to `bool`. -/
def get_alarm_time (dev : I2CMasterDevice σ) (s : σ) (alarm_time : AlarmTime) :
    Bool × AlarmTime :=
  let rd := dev.read s Rtc8563Register.MinuteAlarm 4
  let rd_data := rd.2
  if rd.1 then
    (true, { alarm_time with
      ena_alrm_minute := decide ((rd_data 0 &&& 0x80) >>> 7 ≠ 0)
      ena_alrm_hour := decide ((rd_data 1 &&& 0x80) >>> 7 ≠ 0)
      ena_alrm_day := decide ((rd_data 2 &&& 0x80) >>> 7 ≠ 0)
      ena_alrm_weekday := decide ((rd_data 3 &&& 0x80) >>> 7 ≠ 0)
      minute := bcd_to_decimal (rd_data 0 &&& 0x7F)
      hour24 := bcd_to_decimal (rd_data 1 &&& 0x3F)
      day := bcd_to_decimal (rd_data 2 &&& 0x3F)
      weekday := bcd_to_decimal (rd_data 3 &&& 0x07) })
  else (false, alarm_time)

/-- The method `PCF8563::set_alarm_time(alarm_time)`: the returned flag, the value
of `alarm_time` after the call and the bus state after the call. Month and year
are read from the chip; nothing is validated or written when that read fails. -/
def set_alarm_time (dev : I2CMasterDevice σ) (s : σ) (alarm_time : AlarmTime) :
    Bool × AlarmTime × σ :=
  let rd := dev.read s Rtc8563Register.Months 2
  let rd_data := rd.2
  if rd.1 then
    let month := bcd_to_decimal (rd_data 0 &&& 0x1F)
    let year := (2000 + bcd_to_decimal (rd_data 1)) % 65536
    let alarm_time := { alarm_time with minute := validate_time alarm_time.minute 0 59 }
    let alarm_time := { alarm_time with hour24 := validate_time alarm_time.hour24 0 23 }
    let alarm_time :=
      { alarm_time with
        day := validate_time alarm_time.day 1 (number_of_days_in_month month year) }
    let data :=
      [ Rtc8563Register.MinuteAlarm,
        (decimal_to_bcd alarm_time.minute
          ||| (if alarm_time.ena_alrm_minute then 0x00 else 0x80)) % 256,
        (decimal_to_bcd alarm_time.hour24
          ||| (if alarm_time.ena_alrm_hour then 0x00 else 0x80)) % 256,
        (decimal_to_bcd alarm_time.day
          ||| (if alarm_time.ena_alrm_day then 0x00 else 0x80)) % 256,
        (alarm_time.weekday % 256
          ||| (if alarm_time.ena_alrm_weekday then 0x00 else 0x80)) % 256 ]
    let w := dev.write s data
    (w.1, alarm_time, w.2)
  else (false, alarm_time, s)

end PCF8563

/-! ## Time strings (`rtc.cpp`, `RtcDevice.cpp`) -/

/-- The library function `std::to_string` on an unsigned value: its decimal
numeral. -/
def to_string (n : Nat) : String := Nat.repr n

/-- The function `add_colon_zero_padding(uint8_t time)`. -/
def add_colon_zero_padding (time : Nat) : String :=
  if time < 10 then ":0" ++ to_string time else ":" ++ to_string time

/-- The function `get_12hr_time_string(hours_24, minutes, seconds)`. -/
def get_12hr_time_string (hours_24 minutes seconds : Nat) : String :=
  let hrs_str := if hours_24 == 0 then to_string 12 else to_string (hours_24 % 12)
  let am_pm_str := if hours_24 < 12 then " AM" else " PM"
  hrs_str ++ add_colon_zero_padding minutes ++ add_colon_zero_padding seconds ++ am_pm_str

/-- The function `get_24hr_time_string(hours_24, minutes, seconds)`. -/
def get_24hr_time_string (hours_24 minutes seconds : Nat) : String :=
  to_string hours_24 ++ add_colon_zero_padding minutes ++ add_colon_zero_padding seconds

/-- The text of a result before its first colon (the hour field). -/
def hour_field (s : String) : String :=
  String.mk (s.toList.takeWhile (fun c => c != ':'))

/-- A value below 100 written as exactly two decimal digits, zero-padded. -/
def two_digits (n : Nat) : String :=
  String.mk [Nat.digitChar (n / 10), Nat.digitChar (n % 10)]

/-! ## Sample alarms -/

/-- The alarm the DS3231 test application sets with `set_alarm1`: 13:12:10 on
day 25, Tuesday, only the seconds enabled. -/
def sampleAlarm : AlarmTime :=
  { ena_alrm_second := true, second := 10, ena_alrm_minute := false, minute := 12,
    ena_alrm_hour := false, hour24 := 13, ena_alrm_day := false, day := 25,
    ena_alrm_weekday := false, weekday := DayOfWeek.Tuesday }

/-- An alarm on the date: 13:12:10 on day 25, with the day and the weekday both
enabled. -/
def dateAlarm : AlarmTime :=
  { ena_alrm_second := true, second := 10, ena_alrm_minute := true, minute := 12,
    ena_alrm_hour := true, hour24 := 13, ena_alrm_day := true, day := 25,
    ena_alrm_weekday := true, weekday := DayOfWeek.Tuesday }

/-- An alarm with only the minute enabled: minute 12, hour 13, day 25, Tuesday. -/
def minuteAlarm : AlarmTime :=
  { ena_alrm_second := false, second := 0, ena_alrm_minute := true, minute := 12,
    ena_alrm_hour := false, hour24 := 13, ena_alrm_day := false, day := 25,
    ena_alrm_weekday := false, weekday := DayOfWeek.Tuesday }

/-- What `get_alarm1_time` delivers into a default-constructed `AlarmTime` after
`set_alarm1_time a`: the chip holds either the date or the weekday, so the other
one keeps its default value and reads as disabled. -/
def alarm1_read_back (a : AlarmTime) : AlarmTime :=
  if a.ena_alrm_day then
    { a with ena_alrm_weekday := false, weekday := DayOfWeek.Monday }
  else
    { a with day := 1 }

/-- What `get_alarm2_time` delivers into a default-constructed `AlarmTime` after
`set_alarm2_time a`: as for alarm 1, and the seconds keep their default. -/
def alarm2_read_back (a : AlarmTime) : AlarmTime :=
  if a.ena_alrm_day then
    { a with ena_alrm_second := false, second := 0,
             ena_alrm_weekday := false, weekday := DayOfWeek.Monday }
  else
    { a with ena_alrm_second := false, second := 0, day := 1 }

/-! ## The event queue and the task runner

`Task.h` declares `Task::register_queue_with_task`, `Task::start`, `Task::tick`
and the private state (`queues`, `started`); `Queue.h`, which it includes, and the
bodies of the `Task` methods are not among the sources. This part follows the
spec (sections 3, 4.1, 4.2 and 7). -/

/-- Modelled from the spec: `Queue.h` is not among the sources. An `EventQueue` is
a bounded FIFO channel: a capacity fixed at construction and the items it holds,
oldest first. -/
structure EventQueue (α : Type) where
  capacity : Nat
  items : List α

namespace EventQueue

variable {α : Type}

/-- Modelled from the spec: a queue as constructed, with its fixed capacity and no
items. -/
def new (capacity : Nat) : EventQueue α :=
  { capacity := capacity, items := [] }

/-- Modelled from the spec: `try_push(item) -> bool` enqueues if space is
available and returns false, without blocking, when the queue is full. The result
is the returned flag and the queue after the call. -/
def try_push (q : EventQueue α) (item : α) : Bool × EventQueue α :=
  if q.items.length < q.capacity then (true, { q with items := q.items ++ [item] })
  else (false, q)

/-- Modelled from the spec: `try_pop() -> Optional<T>` removes and returns the
oldest item, or returns empty if there is none. The result is the returned
optional and the queue after the call. -/
def try_pop (q : EventQueue α) : Option α × EventQueue α :=
  match q.items with
  | [] => (none, q)
  | item :: rest => (some item, { q with items := rest })

/-- Successive `try_push` calls, one per item: the flags they return, in order,
and the queue after the last call. -/
def push_all (q : EventQueue α) : List α → List Bool × EventQueue α
  | [] => ([], q)
  | item :: rest =>
    let r := q.try_push item
    let rs := push_all r.2 rest
    (r.1 :: rs.1, rs.2)

/-- Successive `try_pop` calls, `n` of them: the items they return, in order, and
the queue after the last call. -/
def pop_n (q : EventQueue α) : Nat → List α × EventQueue α
  | 0 => ([], q)
  | n + 1 =>
    match q.try_pop with
    | (some item, q1) =>
      let r := pop_n q1 n
      (item :: r.1, r.2)
    | (none, q1) => pop_n q1 n

end EventQueue

/-- Several queues side by side, each under its identity. -/
abbrev QueueFamily (α : Type) := Nat → EventQueue α

namespace QueueFamily

variable {α : Type}

/-- A `try_push` on the queue with identity `i`; the other queues are not
touched. -/
def push_on (qs : QueueFamily α) (i : Nat) (item : α) : Bool × QueueFamily α :=
  let r := (qs i).try_push item
  (r.1, fun j => if j = i then r.2 else qs j)

/-- A sequence of pushes, each naming its queue: the family after the last one. -/
def run_pushes (qs : QueueFamily α) : List (Nat × α) → QueueFamily α
  | [] => qs
  | op :: rest => run_pushes (qs.push_on op.1 op.2).2 rest

/-- The items of a sequence of pushes that were pushed successfully on queue `i`,
in the order of the pushes. -/
def pushed_on (i : Nat) (qs : QueueFamily α) : List (Nat × α) → List α
  | [] => []
  | op :: rest =>
    let r := qs.push_on op.1 op.2
    if op.1 = i ∧ r.1 = true then op.2 :: pushed_on i r.2 rest
    else pushed_on i r.2 rest

end QueueFamily

/-- Modelled from the spec: the states of a task runner (section 3). -/
inductive RunnerState where
  | NotStarted
  | Running
  | Stopped
deriving DecidableEq

/-- Modelled from the spec: the registration errors of the taxonomy (section 7). -/
inductive RegistrationError where
  | DuplicateRegistration
  | RegistrationAfterStart
  | WaitSetFull
deriving DecidableEq

/-- Modelled from the spec: the body of `Task::register_queue_with_task` is not
among the sources. A task runner holds its state, the identities of the
registered queues (the members of its wait set, in registration order) and the
maximum member count of the wait set. -/
structure TaskRunner where
  state : RunnerState
  queues : List Nat
  max_members : Nat
deriving DecidableEq

namespace TaskRunner

/-- Modelled from the spec: a runner as created, in `NotStarted` with no
registered queue. -/
def new (max_members : Nat) : TaskRunner :=
  { state := RunnerState.NotStarted, queues := [], max_members := max_members }

/-- Modelled from the spec: registration fails if (a) the runner has already
started, (b) the queue is already registered, or (c) the wait set is at capacity.
The spec does not say which error is reported when several of these hold, so this
lists every error whose condition holds, in that order. -/
def registration_errors (t : TaskRunner) (queue : Nat) : List RegistrationError :=
  (if t.state ≠ RunnerState.NotStarted then [RegistrationError.RegistrationAfterStart] else [])
    ++ (if queue ∈ t.queues then [RegistrationError.DuplicateRegistration] else [])
    ++ (if t.queues.length ≥ t.max_members then [RegistrationError.WaitSetFull] else [])

/-- Modelled from the spec: `register_queue(queue, handler)`. The result is the
errors the call fails with (none on success) and the runner after the call: on
success the queue has become a member of the wait set, on failure nothing has
changed. -/
def register_queue (t : TaskRunner) (queue : Nat) : List RegistrationError × TaskRunner :=
  if t.registration_errors queue = [] then ([], { t with queues := t.queues ++ [queue] })
  else (t.registration_errors queue, t)

end TaskRunner


/-! ## The task runner: start, run loop, teardown

The bodies of `Task::start`, `Task::exec` and the two constructors are not among
the sources; this part follows the spec (sections 3 and 4.2). The private members
of `Task`, their default initialisers and the declarations of the constructors
are in `Task.h` and are embedded from it. -/

/-- The private state of `Task` that `Task.h` initialises in the class body:
`task_handle = nullptr`, `queues{}`, `is_attached = false`, `started = false`.
A handle is an optional value, the map of queues is its list of entries. -/
structure TaskMembers where
  task_handle : Option Nat
  queues : List (Nat × Nat)
  is_attached : Bool
  started : Bool
deriving DecidableEq

/-- The default member initialisers of `Task.h`. -/
def TaskMembers.initial : TaskMembers :=
  { task_handle := none, queues := [], is_attached := false, started := false }

namespace TaskRunner

/-- Modelled from the spec: the body of `Task::start` is not among the sources.
`start()` is the one-time transition from `NotStarted` to `Running`; calling it on
a runner that is not in `NotStarted` is a fatal precondition violation, which has
no state after it (`none`). -/
def start (t : TaskRunner) : Option TaskRunner :=
  if t.state = RunnerState.NotStarted then some { t with state := RunnerState.Running }
  else none

/-- Modelled from the spec: tearing the task down ends the loop; stopping is
terminal. -/
def teardown (t : TaskRunner) : TaskRunner :=
  { t with state := RunnerState.Stopped }

end TaskRunner

/-- Modelled from the spec: how the wait on the queue set returns in one iteration
of the run loop: by timeout, the tick interval having elapsed with no member
signalled, or because the member with the given identity is signalled. -/
inductive WaitResult where
  | Timeout
  | Signalled (queue : Nat)
deriving DecidableEq

/-- Modelled from the spec: what one iteration of the run loop invokes: the
periodic callback `tick()`, or the handler registered for a queue with the item
taken from that queue. -/
inductive LoopEvent (α : Type) where
  | Tick
  | Dispatch (queue : Nat) (item : α)
deriving DecidableEq

namespace TaskRunner

variable {α : Type}

/-- Modelled from the spec: a wait result is possible for a runner and its queues
when a timeout finds no registered queue holding an item and a signalled member
is a registered queue that holds an item. -/
def wait_possible (t : TaskRunner) (qs : QueueFamily α) : WaitResult → Prop
  | WaitResult.Timeout => ∀ q, q ∈ t.queues → (qs q).items = []
  | WaitResult.Signalled queue => queue ∈ t.queues ∧ (qs queue).items ≠ []

/-- Modelled from the spec: the body of `Task::exec` is not among the sources. One
iteration of the run loop after the wait has returned: on a timeout the periodic
callback is invoked; on a signalled member exactly one item is popped from that
queue and its handler is invoked with it. The result is what was invoked, in
order, and the queues after the iteration. -/
def iteration (_t : TaskRunner) (qs : QueueFamily α) (w : WaitResult) :
    List (LoopEvent α) × QueueFamily α :=
  match w with
  | WaitResult.Timeout => ([LoopEvent.Tick], qs)
  | WaitResult.Signalled queue =>
    match (qs queue).try_pop with
    | (some item, q1) =>
      ([LoopEvent.Dispatch queue item], fun j => if j = queue then q1 else qs j)
    | (none, _) => ([], qs)

end TaskRunner

/-- Modelled from the spec: the operations on a task runner: registering a queue,
`start()`, one iteration of the run loop, and the teardown by the owning
process. -/
inductive TaskOp where
  | register (queue : Nat)
  | start
  | iterate
  | teardown
deriving DecidableEq

/-- Modelled from the spec: the runner after an operation, or `none` when the
operation is a fatal precondition violation: a second `start()`, or an iteration
of the run loop on a runner that is not running. -/
def TaskRunner.apply (t : TaskRunner) : TaskOp → Option TaskRunner
  | TaskOp.register queue => some (t.register_queue queue).2
  | TaskOp.start => t.start
  | TaskOp.iterate => if t.state = RunnerState.Running then some t else none
  | TaskOp.teardown => some t.teardown

/-- The array `DayOfWeekStrings`. -/
def DayOfWeekStrings : List String :=
  ["Sun", "Mon", "Tue", "Wed", "Thu", "Fri", "Sat"]

/-- The array `MonthStrings`. -/
def MonthStrings : List String :=
  ["Jan", "Feb", "Mar", "Apr", "May", "Jun", "Jul", "Aug", "Sep", "Oct", "Nov", "Dec"]

/-- Time registers a DS3231 can hold: 13:11:00 on day 25 of month 12, day of the
week 7, year 20, with the Status register 0. The chip counts the day of the week
1 to 7 and the month 1 to 12. -/
def decemberRegs : Nat → Nat := fun r =>
  if r = 0 then 0x00 else if r = 1 then 0x11 else if r = 2 then 0x13
  else if r = 3 then 0x07 else if r = 4 then 0x25 else if r = 5 then 0x12
  else if r = 6 then 0x20 else 0

/-! ## L289N motor driver and its test application (`L289N.cpp`, `l289n_test.cpp`) -/

/-- Modelled from the spec: `Output` (`smooth/core/io/Output.h`) is not among the
sources. The three outputs of the driver are active high; an output is its level,
`set(v)` drives it to `v` and `clr()` drives it low. The sense input is not used
by `start` and `stop`. -/
structure L289N where
  en_pin : Bool
  in1_pin : Bool
  in2_pin : Bool
deriving DecidableEq

namespace L289N

/-- The method `L289N::start(direction, speed)`. -/
def start (m : L289N) (direction _speed : Nat) : L289N :=
  let m := { m with en_pin := true }
  let m := { m with in1_pin := false }
  let m := { m with in2_pin := false }
  if direction ≠ 0 then { m with in1_pin := true } else { m with in2_pin := true }

/-- The method `L289N::stop()`. -/
def stop (m : L289N) : L289N :=
  let m := { m with en_pin := false }
  let m := { m with in1_pin := false }
  { m with in2_pin := false }

end L289N

namespace l289n_test

/-- The members of `l289n_test::App`: the driver, and `direction` and `count`,
both `uint8_t`. -/
structure App where
  l289n : L289N
  direction : Nat
  count : Nat
deriving DecidableEq

/-- The application as constructed: `direction = 0`, `count = 0`, on a driver
whose outputs have some level. -/
def App.initial (m : L289N) : App :=
  { l289n := m, direction := 0, count := 0 }

/-- The method `App::tick()` (the log lines are not modelled): on an even count
`direction = !direction; l289n.start(direction, 1);`, otherwise `l289n.stop();`,
then `count++`. -/
def App.tick (app : App) : App :=
  let app :=
    if app.count % 2 = 0 then
      let direction := if app.direction ≠ 0 then 0 else 1
      { app with direction := direction, l289n := app.l289n.start direction 1 }
    else
      { app with l289n := app.l289n.stop }
  { app with count := (app.count + 1) % 256 }

/-- The application after `n` ticks. -/
def App.after_ticks (m : L289N) : Nat → App
  | 0 => App.initial m
  | n + 1 => (App.after_ticks m n).tick

end l289n_test

/-! ## Sample runners and queues -/

/-- A runner that has been started with queue 7 registered. -/
def startedRunner : TaskRunner :=
  { state := RunnerState.Running, queues := [7], max_members := 3 }

/-- Queues of numbers in which queue 7 holds 10 and 20 and every other queue is
empty. -/
def sampleQueues : QueueFamily Nat := fun j =>
  if j = 7 then { capacity := 4, items := [10, 20] } else { capacity := 4, items := [] }


/-! ## Shared lemmas -/

set_option maxRecDepth 100000 in
theorem bcd_encode_facts : ∀ d, d < 100 →
    bcd_to_decimal (decimal_to_bcd d) = d ∧ decimal_to_bcd d >>> 4 = d / 10
      ∧ decimal_to_bcd d &&& 0x0F = d % 10 ∧ decimal_to_bcd d < 256 := by
  decide

set_option maxRecDepth 100000 in
theorem bcd_decode_facts : ∀ b, b < 256 → b >>> 4 ≤ 9 → b &&& 0x0F ≤ 9 →
    bcd_to_decimal b = 10 * (b >>> 4) + (b &&& 0x0F)
      ∧ decimal_to_bcd (bcd_to_decimal b) = b := by
  decide

theorem isPackedBcd_decimal_to_bcd (d : Nat) (h : d < 100) : isPackedBcd (decimal_to_bcd d) := by
  obtain ⟨_, h2, h3, h4⟩ := bcd_encode_facts d h
  refine ⟨h4, ?_, ?_⟩
  · rw [h2]; omega
  · rw [h3]; omega

set_option maxRecDepth 100000 in
theorem decode_mask_7F : ∀ d, d < 60 → bcd_to_decimal (decimal_to_bcd d &&& 0x7F) = d := by
  decide

set_option maxRecDepth 100000 in
theorem decode_mask_3F : ∀ d, d < 32 → bcd_to_decimal (decimal_to_bcd d &&& 0x3F) = d := by
  decide

set_option maxRecDepth 100000 in
theorem decode_mask_1F : ∀ m, m < 12 →
    bcd_to_decimal (decimal_to_bcd (m % 256) &&& 0x1F) = m := by
  decide

set_option maxRecDepth 100000 in
theorem decode_mask_07 : ∀ w, w < 7 → bcd_to_decimal (w % 256 &&& 0x07) = w := by
  decide

set_option maxRecDepth 100000 in
theorem seconds_bit7_clear : ∀ d, d < 60 → (decimal_to_bcd d &&& 0x80) >>> 7 = 0 := by
  decide

set_option maxRecDepth 100000 in
theorem osf_cleared_aux : ∀ v, v < 256 →
    ((v &&& ((DS3231.Rtc3231StatusRegisterBits.OSF ^^^ 0xFF) % 256)) % 256)
      &&& DS3231.Rtc3231StatusRegisterBits.OSF = 0 := by
  decide

theorem osf_cleared (v : Nat) :
    (((v % 256) &&& ((DS3231.Rtc3231StatusRegisterBits.OSF ^^^ 0xFF) % 256)) % 256)
      &&& DS3231.Rtc3231StatusRegisterBits.OSF = 0 :=
  osf_cleared_aux (v % 256) (Nat.mod_lt _ (by norm_num))

theorem year_byte (y : Nat) (h1 : 2000 ≤ y) (h2 : y ≤ 2099) :
    Int.toNat (((y : Int) - 2000) % 256) = y - 2000 := by
  omega

theorem number_of_days_in_month_le (m y : Nat) : number_of_days_in_month m y ≤ 31 := by
  unfold number_of_days_in_month
  simp only []
  split_ifs <;> omega

theorem validate_time_id (v lo hi : Nat) (h1 : lo ≤ v) (h2 : v ≤ hi) :
    validate_time v lo hi = v := by
  unfold validate_time
  have : ¬ (v > hi) := by omega
  have : ¬ (v < lo) := by omega
  simp [*]

theorem validate_year_id (y : Nat) (h1 : 2000 ≤ y) (h2 : y ≤ 2099) : validate_year y = y := by
  unfold validate_year
  have : ¬ (y > 2099) := by omega
  have : ¬ (y < 2000) := by omega
  simp [*]

/-! ## Time round trips (C1, C2) -/

theorem DS3231_validate_rtc_time_id (t : RtcTime)
    (hs : t.seconds ≤ 59) (hm : t.minutes ≤ 59) (hh : t.hours24 ≤ 23)
    (hy1 : 2000 ≤ t.years) (hy2 : t.years ≤ 2099)
    (hd1 : 1 ≤ t.days) (hd2 : t.days ≤ number_of_days_in_month t.months t.years) :
    DS3231.validate_rtc_time t = t := by
  unfold DS3231.validate_rtc_time
  simp only [validate_time_id _ 0 59 (Nat.zero_le _) hs, validate_time_id _ 0 59 (Nat.zero_le _) hm,
    validate_time_id _ 0 23 (Nat.zero_le _) hh, validate_year_id _ hy1 hy2,
    validate_time_id _ 1 _ hd1 hd2]

theorem PCF8563_validate_rtc_time_id (t : RtcTime)
    (hs : t.seconds ≤ 59) (hm : t.minutes ≤ 59) (hh : t.hours24 ≤ 23)
    (hy1 : 2000 ≤ t.years) (hy2 : t.years ≤ 2099)
    (hd1 : 1 ≤ t.days) (hd2 : t.days ≤ number_of_days_in_month t.months t.years) :
    PCF8563.validate_rtc_time t = t := by
  unfold PCF8563.validate_rtc_time
  simp only [validate_time_id _ 0 59 (Nat.zero_le _) hs, validate_time_id _ 0 59 (Nat.zero_le _) hm,
    validate_time_id _ 0 23 (Nat.zero_le _) hh, validate_year_id _ hy1 hy2,
    validate_time_id _ 1 _ hd1 hd2]

/-- C1: DS3231 time round trip. For every RtcTime t with seconds ≤ 59, minutes ≤ 59,
hours24 ≤ 23, years in 2000..2099, months in January..December, weekdays in
Sunday..Saturday and 1 ≤ days ≤ number_of_days_in_month(months, years), on a chip
that is a register file storing what is written (whatever it held before),
`set_rtc_time(t)` returns true and a following `get_rtc_time` returns true and
leaves in the caller's RtcTime (whatever it held before) a value equal to t in
all seven fields. -/
theorem DS3231_time_round_trip (t t0 : RtcTime) (regs : Nat → Nat)
    (hs : t.seconds ≤ 59) (hm : t.minutes ≤ 59) (hh : t.hours24 ≤ 23)
    (hy1 : 2000 ≤ t.years) (hy2 : t.years ≤ 2099)
    (hmo : Month.January ≤ t.months ∧ t.months ≤ Month.December)
    (hw : DayOfWeek.Sunday ≤ t.weekdays ∧ t.weekdays ≤ DayOfWeek.Saturday)
    (hd1 : 1 ≤ t.days) (hd2 : t.days ≤ number_of_days_in_month t.months t.years) :
    (DS3231.set_rtc_time regFile regs t).1 = true
      ∧ DS3231.get_rtc_time regFile (DS3231.set_rtc_time regFile regs t).2.2 t0 = (true, t) := by
  have hd3 : t.days ≤ 31 := le_trans hd2 (number_of_days_in_month_le _ _)
  have hmo2 : t.months < 12 := by
    have := hmo.2; simp only [Month.December] at this; omega
  have hw2 : t.weekdays < 7 := by
    have := hw.2; simp only [DayOfWeek.Saturday] at this; omega
  have e1 := decode_mask_7F t.seconds (by omega)
  have e2 := decode_mask_7F t.minutes (by omega)
  have e3 := decode_mask_3F t.hours24 (by omega)
  have e4 := decode_mask_07 t.weekdays hw2
  have e5 := decode_mask_3F t.days (by omega)
  have e6 := decode_mask_1F t.months hmo2
  have e7 := (bcd_encode_facts (t.years - 2000) (by omega)).1
  have e8 := year_byte t.years hy1 hy2
  have e9 : (2000 + (t.years - 2000)) % 65536 = t.years := by omega
  simp only [DS3231.set_rtc_time, DS3231.get_rtc_time, DS3231.get_osf, DS3231.get_reg,
    DS3231.clear_reg_bits, DS3231.set_reg, DS3231.rtc_time_data,
    DS3231_validate_rtc_time_id t hs hm hh hy1 hy2 hd1 hd2, regFile,
    DS3231.Rtc3231Registers.Seconds, DS3231.Rtc3231Registers.Status]
  simp [osf_cleared, e1, e2, e3, e4, e5, e6, e7, e8, e9]

theorem DS3231_time_round_trip_witness :
    (DS3231.set_rtc_time regFile (fun _ => 0xFF) sampleTime).1 = true
      ∧ DS3231.get_rtc_time regFile
          (DS3231.set_rtc_time regFile (fun _ => 0xFF) sampleTime).2.2 otherTime
        = (true, sampleTime) :=
  DS3231_time_round_trip sampleTime otherTime (fun _ => 0xFF) (by decide) (by decide)
    (by decide) (by decide) (by decide) (by decide) (by decide) (by decide) (by decide)

/-- C2: PCF8563 time round trip. For every RtcTime t with seconds ≤ 59, minutes ≤ 59,
hours24 ≤ 23, years in 2000..2099, months in January..December, weekdays in
Sunday..Saturday and 1 ≤ days ≤ number_of_days_in_month(months, years), decoding
with `get_rtc_time` the seven bytes that `set_rtc_time(t)` writes from the Seconds
register returns true and yields an RtcTime equal to t in all seven fields: both
on the register file after the write, and on any bus whose successful 7-byte read
at Seconds delivers those seven bytes. -/
theorem PCF8563_time_round_trip (t t0 : RtcTime)
    (hs : t.seconds ≤ 59) (hm : t.minutes ≤ 59) (hh : t.hours24 ≤ 23)
    (hy1 : 2000 ≤ t.years) (hy2 : t.years ≤ 2099)
    (hmo : Month.January ≤ t.months ∧ t.months ≤ Month.December)
    (hw : DayOfWeek.Sunday ≤ t.weekdays ∧ t.weekdays ≤ DayOfWeek.Saturday)
    (hd1 : 1 ≤ t.days) (hd2 : t.days ≤ number_of_days_in_month t.months t.years) :
    (∀ regs : Nat → Nat,
        (PCF8563.set_rtc_time regFile regs t).1 = true
          ∧ PCF8563.get_rtc_time regFile (PCF8563.set_rtc_time regFile regs t).2.2 t0
              = (true, t))
      ∧ (∀ (σ : Type) (dev : I2CMasterDevice σ) (s : σ),
          (dev.read s PCF8563.Rtc8563Register.Seconds 7).1 = true →
          (∀ i, i < 7 → (dev.read s PCF8563.Rtc8563Register.Seconds 7).2 i
              = (PCF8563.rtc_time_data (PCF8563.validate_rtc_time t)).getD (i + 1) 0) →
          PCF8563.get_rtc_time dev s t0 = (true, t)) := by
  have hd3 : t.days ≤ 31 := le_trans hd2 (number_of_days_in_month_le _ _)
  have hmo2 : t.months < 12 := by
    have := hmo.2; simp only [Month.December] at this; omega
  have hw2 : t.weekdays < 7 := by
    have := hw.2; simp only [DayOfWeek.Saturday] at this; omega
  have e0 := seconds_bit7_clear t.seconds (by omega)
  have e1 := decode_mask_7F t.seconds (by omega)
  have e2 := decode_mask_7F t.minutes (by omega)
  have e3 := decode_mask_3F t.hours24 (by omega)
  have e4 := decode_mask_07 t.weekdays hw2
  have e5 := decode_mask_3F t.days (by omega)
  have e6 := decode_mask_1F t.months hmo2
  have e7 := (bcd_encode_facts (t.years - 2000) (by omega)).1
  have e8 := year_byte t.years hy1 hy2
  have e9 : (2000 + (t.years - 2000)) % 65536 = t.years := by omega
  refine ⟨fun regs => ?_, fun σ dev s hres hdata => ?_⟩
  · simp only [PCF8563.set_rtc_time, PCF8563.get_rtc_time, PCF8563.rtc_time_data,
      PCF8563_validate_rtc_time_id t hs hm hh hy1 hy2 hd1 hd2, regFile,
      PCF8563.Rtc8563Register.Seconds]
    simp [e0, e1, e2, e3, e4, e5, e6, e7, e8, e9]
  · have h0 := hdata 0 (by omega)
    have h1 := hdata 1 (by omega)
    have h2 := hdata 2 (by omega)
    have h3 := hdata 3 (by omega)
    have h4 := hdata 4 (by omega)
    have h5 := hdata 5 (by omega)
    have h6 := hdata 6 (by omega)
    simp only [PCF8563.rtc_time_data, PCF8563_validate_rtc_time_id t hs hm hh hy1 hy2 hd1 hd2,
      List.getD_cons_succ, List.getD_cons_zero] at h0 h1 h2 h3 h4 h5 h6
    simp only [PCF8563.get_rtc_time, hres, h0, h1, h2, h3, h4, h5, h6]
    simp [e0, e1, e2, e3, e4, e5, e6, e7, e8, e9]

theorem PCF8563_time_round_trip_witness :
    (PCF8563.set_rtc_time regFile (fun _ => 0xFF) sampleTime).1 = true
      ∧ PCF8563.get_rtc_time regFile
          (PCF8563.set_rtc_time regFile (fun _ => 0xFF) sampleTime).2.2 otherTime
        = (true, sampleTime) :=
  (PCF8563_time_round_trip sampleTime otherTime (by decide) (by decide)
    (by decide) (by decide) (by decide) (by decide) (by decide) (by decide) (by decide)).1
    (fun _ => 0xFF)

/-! ## BCD conversion, days in a month, validation of one value (C3 to C6) -/

/-- C3: for every decimal value d in 0..99, decoding the BCD encoding of d gives d
back, and the two nibbles of `decimal_to_bcd d` are `d / 10` (high) and `d % 10`
(low), each at most 9. -/
theorem bcd_to_decimal_decimal_to_bcd (d : Nat) (h : d ≤ 99) :
    bcd_to_decimal (decimal_to_bcd d) = d
      ∧ decimal_to_bcd d >>> 4 = d / 10 ∧ decimal_to_bcd d &&& 0x0F = d % 10
      ∧ decimal_to_bcd d >>> 4 ≤ 9 ∧ decimal_to_bcd d &&& 0x0F ≤ 9 := by
  obtain ⟨h1, h2, h3, _⟩ := bcd_encode_facts d (by omega)
  refine ⟨h1, h2, h3, ?_, ?_⟩
  · rw [h2]; omega
  · rw [h3]; omega

theorem bcd_to_decimal_decimal_to_bcd_witness :
    59 ≤ 99 ∧ (bcd_to_decimal (decimal_to_bcd 59) = 59
      ∧ decimal_to_bcd 59 >>> 4 = 59 / 10 ∧ decimal_to_bcd 59 &&& 0x0F = 59 % 10
      ∧ decimal_to_bcd 59 >>> 4 ≤ 9 ∧ decimal_to_bcd 59 &&& 0x0F ≤ 9) :=
  ⟨by decide, bcd_to_decimal_decimal_to_bcd 59 (by decide)⟩

/-- C4: for every byte b whose two nibbles are both at most 9 (valid packed BCD),
`bcd_to_decimal b` is `10 * (b >> 4) + (b & 0x0F)` and encoding that value with
`decimal_to_bcd` gives b back. -/
theorem decimal_to_bcd_bcd_to_decimal (b : Nat) (hb : b < 256)
    (hhi : b >>> 4 ≤ 9) (hlo : b &&& 0x0F ≤ 9) :
    bcd_to_decimal b = 10 * (b >>> 4) + (b &&& 0x0F)
      ∧ decimal_to_bcd (bcd_to_decimal b) = b :=
  bcd_decode_facts b hb hhi hlo

theorem decimal_to_bcd_bcd_to_decimal_witness :
    (0x59 < 256 ∧ 0x59 >>> 4 ≤ 9 ∧ 0x59 &&& 0x0F ≤ 9)
      ∧ (bcd_to_decimal 0x59 = 10 * (0x59 >>> 4) + (0x59 &&& 0x0F)
        ∧ decimal_to_bcd (bcd_to_decimal 0x59) = 0x59) :=
  ⟨by decide, decimal_to_bcd_bcd_to_decimal 0x59 (by decide) (by decide) (by decide)⟩

/-- C5: for every month m in January..December and every 16-bit year y,
`number_of_days_in_month m y` is 30 for April, June, September and November; for
February it is 29 when y is divisible by 4 and not by 100, or divisible by 400,
and 28 otherwise; it is 31 for every other month. -/
theorem number_of_days_in_month_gregorian (m y : Nat)
    (hm : Month.January ≤ m ∧ m ≤ Month.December) :
    number_of_days_in_month m y =
      if m = Month.April ∨ m = Month.June ∨ m = Month.September ∨ m = Month.November then 30
      else if m = Month.February then
        (if (y % 4 = 0 ∧ ¬ y % 100 = 0) ∨ y % 400 = 0 then 29 else 28)
      else 31 := by
  have hm2 : m ≤ 11 := hm.2
  unfold number_of_days_in_month
  interval_cases m <;>
    simp [Month.April, Month.June, Month.September, Month.November, Month.February]

theorem number_of_days_in_month_gregorian_witness :
    number_of_days_in_month Month.February 2100 = 28
      ∧ number_of_days_in_month Month.February 2000 = 29
      ∧ number_of_days_in_month Month.February 2020 = 29
      ∧ number_of_days_in_month Month.November 2020 = 30
      ∧ number_of_days_in_month Month.December 2020 = 31 :=
  ⟨(number_of_days_in_month_gregorian Month.February 2100 (by decide)).trans
      (by decide),
    by decide, by decide, by decide, by decide⟩

/-- C6: for every 8-bit value and limits with min_limit ≤ max_limit,
`validate_time` leaves the value unchanged when it lies in
[min_limit, max_limit] and otherwise sets it to min_limit; the result lies in
[min_limit, max_limit], and validating the result again changes nothing. -/
theorem validate_time_spec (time min_limit max_limit : Nat)
    (hle : min_limit ≤ max_limit) :
    (min_limit ≤ time ∧ time ≤ max_limit → validate_time time min_limit max_limit = time)
      ∧ (¬ (min_limit ≤ time ∧ time ≤ max_limit) →
          validate_time time min_limit max_limit = min_limit)
      ∧ min_limit ≤ validate_time time min_limit max_limit
      ∧ validate_time time min_limit max_limit ≤ max_limit
      ∧ validate_time (validate_time time min_limit max_limit) min_limit max_limit
          = validate_time time min_limit max_limit := by
  unfold validate_time
  by_cases h1 : time > max_limit <;> by_cases h2 : time < min_limit <;>
    simp [h1, h2] <;> omega

theorem validate_time_spec_witness :
    validate_time 60 0 59 = 0 ∧ validate_time 31 1 30 = 1 ∧ validate_time 0 1 31 = 1
      ∧ validate_time 17 0 23 = 17 :=
  ⟨(validate_time_spec 60 0 59 (by decide)).2.1
      (by decide),
    by decide, by decide, by decide⟩

/-! ## Validation in `set_rtc_time` (C7) -/

theorem validate_time_eq_ite (v lo hi : Nat) :
    validate_time v lo hi = if lo ≤ v ∧ v ≤ hi then v else lo := by
  unfold validate_time
  by_cases h : lo ≤ v ∧ v ≤ hi
  · have h1 : ¬ (v > hi) := by omega
    have h2 : ¬ (v < lo) := by omega
    simp [h, h1, h2]
  · have h3 : v > hi ∨ v < lo := by omega
    rw [if_neg h, if_pos (by simpa using h3)]

theorem validate_year_eq_ite (y : Nat) :
    validate_year y = if 2000 ≤ y ∧ y ≤ 2099 then y else 2000 := by
  unfold validate_year
  by_cases h : 2000 ≤ y ∧ y ≤ 2099
  · have h1 : ¬ (y > 2099) := by omega
    have h2 : ¬ (y < 2000) := by omega
    simp [h, h1, h2]
  · have h3 : y > 2099 ∨ y < 2000 := by omega
    rw [if_neg h, if_pos (by simpa using h3)]

theorem DS3231_validate_rtc_time_eq_spec (t : RtcTime) :
    DS3231.validate_rtc_time t = validated_time_spec t := by
  simp only [DS3231.validate_rtc_time, validated_time_spec, validate_time_eq_ite,
    validate_year_eq_ite]
  congr 1 <;> first | rfl | (split_ifs <;> omega)

theorem PCF8563_validate_rtc_time_eq_spec (t : RtcTime) :
    PCF8563.validate_rtc_time t = validated_time_spec t := by
  simp only [PCF8563.validate_rtc_time, validated_time_spec, validate_time_eq_ite,
    validate_year_eq_ite]
  congr 1 <;> first | rfl | (split_ifs <;> omega)

theorem validated_time_spec_bounds (t : RtcTime) :
    (validated_time_spec t).seconds ≤ 59 ∧ (validated_time_spec t).minutes ≤ 59
      ∧ (validated_time_spec t).hours24 ≤ 23
      ∧ 2000 ≤ (validated_time_spec t).years ∧ (validated_time_spec t).years ≤ 2099
      ∧ 1 ≤ (validated_time_spec t).days ∧ (validated_time_spec t).days ≤ 31 := by
  have hn1 := number_of_days_in_month_le t.months t.years
  have hn2 := number_of_days_in_month_le t.months 2000
  simp only [validated_time_spec]
  refine ⟨?_, ?_, ?_, ?_, ?_, ?_, ?_⟩ <;> split_ifs <;> omega

/-- C7 (as amended): `DS3231::set_rtc_time` and `PCF8563::set_rtc_time` validate the
time before writing it. For every RtcTime with months in January..December the
caller's RtcTime holds the validated values afterwards (seconds or minutes above
59 and hours above 23 become 0, a year outside 2000..2099 becomes 2000, then a
day outside 1..number_of_days_in_month(months, validated year) becomes 1); the
bytes written for seconds, minutes, hours, days, months and years are the BCD
encodings of the validated values and are valid packed BCD; the weekday byte is
the weekdays value itself, written without validation, and is valid packed BCD
when weekdays is in Sunday..Saturday. -/
theorem set_rtc_time_validates (t : RtcTime)
    (hmo : Month.January ≤ t.months ∧ t.months ≤ Month.December) :
    (∀ (σ : Type) (dev : I2CMasterDevice σ) (s : σ),
        (DS3231.set_rtc_time dev s t).2.1 = validated_time_spec t
          ∧ (PCF8563.set_rtc_time dev s t).2.1 = validated_time_spec t)
      ∧ (∀ regs : Nat → Nat,
          List.map (DS3231.set_rtc_time regFile regs t).2.2 [0, 1, 2, 3, 4, 5, 6]
            = [decimal_to_bcd (validated_time_spec t).seconds,
                decimal_to_bcd (validated_time_spec t).minutes,
                decimal_to_bcd (validated_time_spec t).hours24,
                t.weekdays % 256,
                decimal_to_bcd (validated_time_spec t).days,
                decimal_to_bcd (validated_time_spec t).months,
                decimal_to_bcd ((validated_time_spec t).years - 2000)])
      ∧ (∀ regs : Nat → Nat,
          List.map (PCF8563.set_rtc_time regFile regs t).2.2 [2, 3, 4, 5, 6, 7, 8]
            = [decimal_to_bcd (validated_time_spec t).seconds,
                decimal_to_bcd (validated_time_spec t).minutes,
                decimal_to_bcd (validated_time_spec t).hours24,
                decimal_to_bcd (validated_time_spec t).days,
                t.weekdays % 256,
                decimal_to_bcd (validated_time_spec t).months,
                decimal_to_bcd ((validated_time_spec t).years - 2000)])
      ∧ (isPackedBcd (decimal_to_bcd (validated_time_spec t).seconds)
          ∧ isPackedBcd (decimal_to_bcd (validated_time_spec t).minutes)
          ∧ isPackedBcd (decimal_to_bcd (validated_time_spec t).hours24)
          ∧ isPackedBcd (decimal_to_bcd (validated_time_spec t).days)
          ∧ isPackedBcd (decimal_to_bcd (validated_time_spec t).months)
          ∧ isPackedBcd (decimal_to_bcd ((validated_time_spec t).years - 2000)))
      ∧ (DayOfWeek.Sunday ≤ t.weekdays ∧ t.weekdays ≤ DayOfWeek.Saturday →
          isPackedBcd (t.weekdays % 256)) := by
  obtain ⟨b1, b2, b3, b4, b5, b6, b7⟩ := validated_time_spec_bounds t
  have hmo2 : t.months < 12 := by
    have := hmo.2; simp only [Month.December] at this; omega
  have hmonths : (validated_time_spec t).months = t.months := rfl
  have hweek : (validated_time_spec t).weekdays = t.weekdays := rfl
  have hyear := year_byte (validated_time_spec t).years b4 b5
  have hmod : t.months % 256 = t.months := Nat.mod_eq_of_lt (by omega)
  refine ⟨fun σ dev s => ⟨?_, ?_⟩, fun regs => ?_, fun regs => ?_, ?_, ?_⟩
  · simp only [DS3231.set_rtc_time, DS3231_validate_rtc_time_eq_spec]
    split_ifs <;> rfl
  · simp only [PCF8563.set_rtc_time, PCF8563_validate_rtc_time_eq_spec]
  · simp only [DS3231.set_rtc_time, DS3231.clear_reg_bits, DS3231.get_reg, DS3231.set_reg,
      DS3231.rtc_time_data, DS3231_validate_rtc_time_eq_spec, regFile,
      DS3231.Rtc3231Registers.Seconds, DS3231.Rtc3231Registers.Status, hyear, hmonths, hweek,
      hmod]
    simp
  · simp only [PCF8563.set_rtc_time, PCF8563.rtc_time_data, PCF8563_validate_rtc_time_eq_spec,
      regFile, PCF8563.Rtc8563Register.Seconds, hyear, hmonths, hweek, hmod]
    simp
  · rw [hmonths]
    exact ⟨isPackedBcd_decimal_to_bcd _ (by omega), isPackedBcd_decimal_to_bcd _ (by omega),
      isPackedBcd_decimal_to_bcd _ (by omega), isPackedBcd_decimal_to_bcd _ (by omega),
      isPackedBcd_decimal_to_bcd _ (by omega), isPackedBcd_decimal_to_bcd _ (by omega)⟩
  · intro hw
    have hw2 : t.weekdays < 7 := by
      have := hw.2; simp only [DayOfWeek.Saturday] at this; omega
    have : ∀ w, w < 7 → isPackedBcd (w % 256) := by decide
    exact this _ hw2

theorem set_rtc_time_validates_witness :
    (DS3231.set_rtc_time regFile (fun _ => 0) outOfRangeTime).2.1
        = { seconds := 0, minutes := 0, hours24 := 0, days := 1,
            weekdays := DayOfWeek.Tuesday, months := Month.February, years := 2000 }
      ∧ List.map (DS3231.set_rtc_time regFile (fun _ => 0) outOfRangeTime).2.2
          [0, 1, 2, 3, 4, 5, 6] = [0, 0, 0, 2, 1, 1, 0]
      ∧ (DS3231.set_rtc_time regFile (fun _ => 0) outOfRangeTime).2.1
        = validated_time_spec outOfRangeTime :=
  ⟨by decide, by decide,
    ((set_rtc_time_validates outOfRangeTime (by decide)).1 _ regFile (fun _ => 0)).1⟩

/-- C7 (counterexample): with months in January..December and the weekday byte 10,
the weekday byte that either driver writes is 0x0A, which is not packed BCD. -/
theorem set_rtc_time_weekday_byte_not_bcd :
    (Month.January ≤ badWeekdayTime.months ∧ badWeekdayTime.months ≤ Month.December)
      ∧ (DS3231.set_rtc_time regFile (fun _ => 0) badWeekdayTime).2.2 3 = 0x0A
      ∧ ¬ isPackedBcd ((DS3231.set_rtc_time regFile (fun _ => 0) badWeekdayTime).2.2 3)
      ∧ (PCF8563.set_rtc_time regFile (fun _ => 0) badWeekdayTime).2.2 6 = 0x0A
      ∧ ¬ isPackedBcd ((PCF8563.set_rtc_time regFile (fun _ => 0) badWeekdayTime).2.2 6) := by
  decide

/-! ## Result and frame of `get_rtc_time` (C8 to C10) -/

set_option maxRecDepth 100000 in
theorem bit7_facts : ∀ v, v < 256 →
    (decide (v &&& DS3231.Rtc3231StatusRegisterBits.OSF ≠ 0) = v.testBit 7)
      ∧ (decide ((v &&& 0x80) >>> 7 = 0) = !v.testBit 7) := by
  decide

theorem and_80_mod (x : Nat) : x &&& 0x80 = (x % 256) &&& 0x80 := by
  have h : x % 256 = x &&& 255 := by
    have := Nat.and_pow_two_sub_one_eq_mod x 8
    simpa using this.symm
  rw [h, Nat.and_assoc]
  rfl

theorem testBit7_mod (x : Nat) : (x % 256).testBit 7 = x.testBit 7 := by
  have := Nat.testBit_mod_two_pow x 8 7
  simpa using this

theorem osf_flag_eq (x : Nat) :
    decide (x % 256 &&& DS3231.Rtc3231StatusRegisterBits.OSF ≠ 0) = x.testBit 7 := by
  rw [(bit7_facts (x % 256) (Nat.mod_lt _ (by norm_num))).1, testBit7_mod]

theorem voltage_low_eq (x : Nat) : decide ((x &&& 0x80) >>> 7 = 0) = !x.testBit 7 := by
  rw [and_80_mod, (bit7_facts (x % 256) (Nat.mod_lt _ (by norm_num))).2, testBit7_mod]

/-- C8: `DS3231::get_rtc_time` returns true exactly when the 7-byte read of the time
registers succeeds, the read of the Status register succeeds and bit 7 of the
Status byte (OSF) is 0; when both reads succeed and OSF is 1 it returns false. -/
theorem DS3231_get_rtc_time_true_iff {σ : Type} (dev : I2CMasterDevice σ) (s : σ)
    (t0 : RtcTime) :
    ((DS3231.get_rtc_time dev s t0).1 = true ↔
        ((dev.read s DS3231.Rtc3231Registers.Seconds 7).1 = true
          ∧ (dev.read s DS3231.Rtc3231Registers.Status 1).1 = true
          ∧ ((dev.read s DS3231.Rtc3231Registers.Status 1).2 0).testBit 7 = false))
      ∧ ((dev.read s DS3231.Rtc3231Registers.Seconds 7).1 = true →
          (dev.read s DS3231.Rtc3231Registers.Status 1).1 = true →
          ((dev.read s DS3231.Rtc3231Registers.Status 1).2 0).testBit 7 = true →
          (DS3231.get_rtc_time dev s t0).1 = false) := by
  simp only [DS3231.get_rtc_time, DS3231.get_osf, DS3231.get_reg, osf_flag_eq]
  constructor
  · simp [and_assoc]
  · intro h1 h2 h3
    simp [h1, h2, h3]

/-- C9: `PCF8563::get_rtc_time` returns true exactly when the 7-byte read starting
at the Seconds register succeeds and bit 7 of the seconds byte (voltage low) is 0. -/
theorem PCF8563_get_rtc_time_true_iff {σ : Type} (dev : I2CMasterDevice σ) (s : σ)
    (t0 : RtcTime) :
    (PCF8563.get_rtc_time dev s t0).1 = true ↔
      ((dev.read s PCF8563.Rtc8563Register.Seconds 7).1 = true
        ∧ ((dev.read s PCF8563.Rtc8563Register.Seconds 7).2 0).testBit 7 = false) := by
  simp only [PCF8563.get_rtc_time, voltage_low_eq]
  simp

/-- C10: whenever `DS3231::get_rtc_time` or `PCF8563::get_rtc_time` returns false,
the caller's `RtcTime` is unchanged in all seven fields. -/
theorem get_rtc_time_false_unchanged {σ : Type} (dev : I2CMasterDevice σ) (s : σ)
    (t0 : RtcTime) :
    ((DS3231.get_rtc_time dev s t0).1 = false → (DS3231.get_rtc_time dev s t0).2 = t0)
      ∧ ((PCF8563.get_rtc_time dev s t0).1 = false →
          (PCF8563.get_rtc_time dev s t0).2 = t0) := by
  constructor
  · simp only [DS3231.get_rtc_time]
    intro h
    split_ifs with h1 h2
    · rfl
    · simp [h1, h2] at h
    · rfl
  · simp only [PCF8563.get_rtc_time]
    intro h
    rw [if_neg]
    simp [h]

theorem get_rtc_time_false_unchanged_witness :
    ((DS3231.get_rtc_time regFile (fun _ => 0xFF) otherTime).1 = false
        ∧ (DS3231.get_rtc_time regFile (fun _ => 0xFF) otherTime).2 = otherTime)
      ∧ ((PCF8563.get_rtc_time regFile (fun _ => 0xFF) otherTime).1 = false
        ∧ (PCF8563.get_rtc_time regFile (fun _ => 0xFF) otherTime).2 = otherTime) :=
  ⟨⟨by decide, (get_rtc_time_false_unchanged regFile (fun _ => 0xFF) otherTime).1 (by decide)⟩,
    ⟨by decide, (get_rtc_time_false_unchanged regFile (fun _ => 0xFF) otherTime).2 (by decide)⟩⟩

/-! ## DS3231 alarm round trip (C11) -/

set_option maxRecDepth 100000 in
theorem alarm_byte_7F : ∀ d, d < 60 → ∀ e : Bool,
    bcd_to_decimal (((decimal_to_bcd d ||| (if e then 0x00 else 0x80)) % 256) &&& 0x7F) = d
      ∧ decide ((((decimal_to_bcd d ||| (if e then 0x00 else 0x80)) % 256) ^^^ 0xFF)
          &&& 0x80 ≠ 0) = e
      ∧ decide ((((decimal_to_bcd d ||| (if e then 0x00 else 0x80)) % 256) &&& 0x80)
          >>> 7 ≠ 0) = !e := by
  decide

set_option maxRecDepth 100000 in
theorem alarm_byte_3F : ∀ d, d < 32 → ∀ e : Bool,
    bcd_to_decimal (((decimal_to_bcd d ||| (if e then 0x00 else 0x80)) % 256) &&& 0x3F) = d
      ∧ decide ((((decimal_to_bcd d ||| (if e then 0x00 else 0x80)) % 256) ^^^ 0xFF)
          &&& 0x80 ≠ 0) = e
      ∧ decide ((((decimal_to_bcd d ||| (if e then 0x00 else 0x80)) % 256) &&& 0x80)
          >>> 7 ≠ 0) = !e := by
  decide

set_option maxRecDepth 100000 in
theorem alarm_date_byte : ∀ d, d < 32 →
    (((decimal_to_bcd d &&& 0xBF) ||| 0x00) % 256) &&& 0x40 = 0
      ∧ decide (((((decimal_to_bcd d &&& 0xBF) ||| 0x00) % 256) ^^^ 0xFF) &&& 0x80 ≠ 0) = true
      ∧ bcd_to_decimal ((((decimal_to_bcd d &&& 0xBF) ||| 0x00) % 256) &&& 0x3F) = d := by
  decide

set_option maxRecDepth 100000 in
theorem alarm_weekday_byte : ∀ w, w < 7 → ∀ e : Bool,
    ((decimal_to_bcd (w % 256) ||| (if e then 0x00 else 0x80) ||| 0x40) % 256) &&& 0x40 ≠ 0
      ∧ decide ((((decimal_to_bcd (w % 256) ||| (if e then 0x00 else 0x80) ||| 0x40) % 256)
          ^^^ 0xFF) &&& 0x80 ≠ 0) = e
      ∧ bcd_to_decimal (((decimal_to_bcd (w % 256) ||| (if e then 0x00 else 0x80) ||| 0x40)
          % 256) &&& 0x07) = w := by
  decide

/-- C11 (as amended): DS3231 alarm round trip. For every AlarmTime a with
second ≤ 59, minute ≤ 59, hour24 ≤ 23, 1 ≤ day ≤ 31 and weekday in
Sunday..Saturday, on the register file `set_alarm1_time(a)` succeeds and
`get_alarm1_time` into a default-constructed AlarmTime then returns true with
second, minute, hour24 and the flags for second, minute, hour and day equal to
those of a; when `a.ena_alrm_day` is true the day equals `a.day`, the weekday flag
reads false and the weekday keeps its default Monday; when it is false the
weekday and its flag equal those of a and the day keeps its default 1. The same
holds for alarm 2 on the fields other than second and ena_alrm_second, which keep
their defaults. -/
theorem DS3231_alarm_round_trip (a : AlarmTime) (regs : Nat → Nat)
    (hs : a.second ≤ 59) (hm : a.minute ≤ 59) (hh : a.hour24 ≤ 23)
    (hd1 : 1 ≤ a.day) (hd2 : a.day ≤ 31)
    (hw : DayOfWeek.Sunday ≤ a.weekday ∧ a.weekday ≤ DayOfWeek.Saturday) :
    ((DS3231.set_alarm1_time regFile regs a).1 = true
      ∧ DS3231.get_alarm1_time regFile (DS3231.set_alarm1_time regFile regs a).2.2
          AlarmTime.default_constructed = (true, alarm1_read_back a))
    ∧ ((DS3231.set_alarm2_time regFile regs a).1 = true
      ∧ DS3231.get_alarm2_time regFile (DS3231.set_alarm2_time regFile regs a).2.2
          AlarmTime.default_constructed = (true, alarm2_read_back a)) := by
  have hw2 : a.weekday < 7 := by
    have := hw.2; simp only [DayOfWeek.Saturday] at this; omega
  obtain ⟨s1, s2, -⟩ := alarm_byte_7F a.second (by omega) a.ena_alrm_second
  obtain ⟨m1, m2, -⟩ := alarm_byte_7F a.minute (by omega) a.ena_alrm_minute
  obtain ⟨h1, h2, -⟩ := alarm_byte_3F a.hour24 (by omega) a.ena_alrm_hour
  obtain ⟨d1, d2, d3⟩ := alarm_date_byte a.day (by omega)
  obtain ⟨w1, w2, w3⟩ := alarm_weekday_byte a.weekday hw2 a.ena_alrm_weekday
  have vs := validate_time_id a.second 0 59 (Nat.zero_le _) hs
  have vm := validate_time_id a.minute 0 59 (Nat.zero_le _) hm
  have vh := validate_time_id a.hour24 0 23 (Nat.zero_le _) hh
  have vd := validate_time_id a.day 1 31 hd1 hd2
  refine ⟨?_, ?_⟩
  · simp only [DS3231.set_alarm1_time, DS3231.get_alarm1_time, DS3231.alarm_day_byte, regFile,
      DS3231.Rtc3231Registers.SecondsAlarm1, vs, vm, vh, vd, alarm1_read_back,
      AlarmTime.default_constructed]
    by_cases hday : a.ena_alrm_day = true
    · simp at d1 d2 d3
      simp [hday, s1, s2, m1, m2, h1, h2, d1, d2, d3]
    · simp at w1 w2 w3
      simp [hday, s1, s2, m1, m2, h1, h2, w1, w2, w3]
  · simp only [DS3231.set_alarm2_time, DS3231.get_alarm2_time, DS3231.alarm_day_byte, regFile,
      DS3231.Rtc3231Registers.MinutesAlarm2, vs, vm, vh, vd, alarm2_read_back,
      AlarmTime.default_constructed]
    by_cases hday : a.ena_alrm_day = true
    · simp at d1 d2 d3
      simp [hday, m1, m2, h1, h2, d1, d2, d3]
    · simp at w1 w2 w3
      simp [hday, m1, m2, h1, h2, w1, w2, w3]

theorem DS3231_alarm_round_trip_witness :
    ((DS3231.set_alarm1_time regFile (fun _ => 0) sampleAlarm).1 = true
      ∧ DS3231.get_alarm1_time regFile (DS3231.set_alarm1_time regFile (fun _ => 0) sampleAlarm).2.2
          AlarmTime.default_constructed = (true, alarm1_read_back sampleAlarm))
    ∧ ((DS3231.set_alarm2_time regFile (fun _ => 0) sampleAlarm).1 = true
      ∧ DS3231.get_alarm2_time regFile (DS3231.set_alarm2_time regFile (fun _ => 0) sampleAlarm).2.2
          AlarmTime.default_constructed = (true, alarm2_read_back sampleAlarm)) :=
  DS3231_alarm_round_trip sampleAlarm (fun _ => 0) (by decide) (by decide) (by decide)
    (by decide) (by decide) (by decide)

/-- C11 (counterexample): the alarm the test application sets (day 25, Tuesday,
only the seconds enabled) is in range, yet after `set_alarm1_time` the alarm read
back into a default-constructed AlarmTime has day 1, so it is not equal to the
alarm under `operator==`; alarm 2 reads back day 1 as well; and an alarm with the
day and the weekday both enabled reads back with the weekday disabled. -/
theorem DS3231_alarm_round_trip_fails :
    (sampleAlarm.second ≤ 59 ∧ sampleAlarm.minute ≤ 59 ∧ sampleAlarm.hour24 ≤ 23
        ∧ 1 ≤ sampleAlarm.day ∧ sampleAlarm.day ≤ 31
        ∧ DayOfWeek.Sunday ≤ sampleAlarm.weekday ∧ sampleAlarm.weekday ≤ DayOfWeek.Saturday)
      ∧ (DS3231.get_alarm1_time regFile
            (DS3231.set_alarm1_time regFile (fun _ => 0) sampleAlarm).2.2
            AlarmTime.default_constructed).1 = true
      ∧ AlarmTime.op_eq
          (DS3231.get_alarm1_time regFile
            (DS3231.set_alarm1_time regFile (fun _ => 0) sampleAlarm).2.2
            AlarmTime.default_constructed).2 sampleAlarm = false
      ∧ (DS3231.get_alarm1_time regFile
            (DS3231.set_alarm1_time regFile (fun _ => 0) sampleAlarm).2.2
            AlarmTime.default_constructed).2.day = 1
      ∧ sampleAlarm.day = 25
      ∧ (DS3231.get_alarm2_time regFile
            (DS3231.set_alarm2_time regFile (fun _ => 0) sampleAlarm).2.2
            AlarmTime.default_constructed).2.day = 1
      ∧ (DS3231.get_alarm1_time regFile
            (DS3231.set_alarm1_time regFile (fun _ => 0) dateAlarm).2.2
            AlarmTime.default_constructed).2.ena_alrm_weekday = false
      ∧ dateAlarm.ena_alrm_weekday = true := by
  decide

/-! ## PCF8563 alarm (C12, C13) -/

/-- C12 (the code at the failing input): on the register file, after
`PCF8563::set_alarm_time` of an alarm with only the minute enabled,
`PCF8563::get_alarm_time` returns true and reads the minute flag as false and the
hour, day and weekday flags as true: each flag comes back negated. -/
theorem PCF8563_alarm_flags_read_negated :
    (minuteAlarm.ena_alrm_minute = true ∧ minuteAlarm.ena_alrm_hour = false
        ∧ minuteAlarm.ena_alrm_day = false ∧ minuteAlarm.ena_alrm_weekday = false)
      ∧ (PCF8563.set_alarm_time regFile (fun _ => 0) minuteAlarm).1 = true
      ∧ (PCF8563.get_alarm_time regFile
            (PCF8563.set_alarm_time regFile (fun _ => 0) minuteAlarm).2.2
            AlarmTime.default_constructed).1 = true
      ∧ (PCF8563.get_alarm_time regFile
            (PCF8563.set_alarm_time regFile (fun _ => 0) minuteAlarm).2.2
            AlarmTime.default_constructed).2.ena_alrm_minute = false
      ∧ (PCF8563.get_alarm_time regFile
            (PCF8563.set_alarm_time regFile (fun _ => 0) minuteAlarm).2.2
            AlarmTime.default_constructed).2.ena_alrm_hour = true
      ∧ (PCF8563.get_alarm_time regFile
            (PCF8563.set_alarm_time regFile (fun _ => 0) minuteAlarm).2.2
            AlarmTime.default_constructed).2.ena_alrm_day = true
      ∧ (PCF8563.get_alarm_time regFile
            (PCF8563.set_alarm_time regFile (fun _ => 0) minuteAlarm).2.2
            AlarmTime.default_constructed).2.ena_alrm_weekday = true := by
  decide

set_option maxRecDepth 100000 in
theorem pcf_weekday_byte : ∀ w, w < 7 → ∀ e : Bool,
    bcd_to_decimal (((w % 256 ||| (if e then 0x00 else 0x80)) % 256) &&& 0x07) = w
      ∧ decide ((((w % 256 ||| (if e then 0x00 else 0x80)) % 256) &&& 0x80) >>> 7 ≠ 0)
          = !e := by
  decide

/-- C13: PCF8563 alarm values round trip. For every AlarmTime a with minute ≤ 59,
hour24 ≤ 23, weekday in Sunday..Saturday and day within
1..number_of_days_in_month of the month and year stored in the chip (registers
Months and Years, decoded as `set_alarm_time` decodes them), whatever the four
enable flags and the prior contents of the caller's AlarmTime are, on the register
file `set_alarm_time(a)` succeeds and `get_alarm_time` then returns true with
minute, hour24, day and weekday equal to those of a. -/
theorem PCF8563_alarm_values_round_trip (a a0 : AlarmTime) (regs : Nat → Nat)
    (hm : a.minute ≤ 59) (hh : a.hour24 ≤ 23)
    (hw : DayOfWeek.Sunday ≤ a.weekday ∧ a.weekday ≤ DayOfWeek.Saturday)
    (hd1 : 1 ≤ a.day)
    (hd2 : a.day ≤ number_of_days_in_month
      (bcd_to_decimal (regs PCF8563.Rtc8563Register.Months &&& 0x1F))
      ((2000 + bcd_to_decimal (regs PCF8563.Rtc8563Register.Years)) % 65536)) :
    (PCF8563.set_alarm_time regFile regs a).1 = true
      ∧ (PCF8563.get_alarm_time regFile (PCF8563.set_alarm_time regFile regs a).2.2 a0).1 = true
      ∧ (PCF8563.get_alarm_time regFile (PCF8563.set_alarm_time regFile regs a).2.2 a0).2.minute
          = a.minute
      ∧ (PCF8563.get_alarm_time regFile (PCF8563.set_alarm_time regFile regs a).2.2 a0).2.hour24
          = a.hour24
      ∧ (PCF8563.get_alarm_time regFile (PCF8563.set_alarm_time regFile regs a).2.2 a0).2.day
          = a.day
      ∧ (PCF8563.get_alarm_time regFile (PCF8563.set_alarm_time regFile regs a).2.2 a0).2.weekday
          = a.weekday := by
  have hw2 : a.weekday < 7 := by
    have := hw.2; simp only [DayOfWeek.Saturday] at this; omega
  have hd3 : a.day ≤ 31 := le_trans hd2 (number_of_days_in_month_le _ _)
  obtain ⟨m1, -, -⟩ := alarm_byte_7F a.minute (by omega) a.ena_alrm_minute
  obtain ⟨h1, -, -⟩ := alarm_byte_3F a.hour24 (by omega) a.ena_alrm_hour
  obtain ⟨d1, -, -⟩ := alarm_byte_3F a.day (by omega) a.ena_alrm_day
  obtain ⟨w1, -⟩ := pcf_weekday_byte a.weekday hw2 a.ena_alrm_weekday
  have vm := validate_time_id a.minute 0 59 (Nat.zero_le _) hm
  have vh := validate_time_id a.hour24 0 23 (Nat.zero_le _) hh
  simp only [PCF8563.Rtc8563Register.Months, PCF8563.Rtc8563Register.Years] at hd2
  have vd := validate_time_id a.day 1 _ hd1 hd2
  simp only [PCF8563.set_alarm_time, PCF8563.get_alarm_time, regFile,
    PCF8563.Rtc8563Register.Months, PCF8563.Rtc8563Register.MinuteAlarm]
  simp at vd w1
  simp [vm, vh, vd, m1, h1, d1, w1]

theorem PCF8563_alarm_values_round_trip_witness :
    (PCF8563.get_alarm_time regFile
        (PCF8563.set_alarm_time regFile (fun _ => 0) sampleAlarm).2.2 dateAlarm).2.minute = 12
      ∧ (PCF8563.get_alarm_time regFile
        (PCF8563.set_alarm_time regFile (fun _ => 0) sampleAlarm).2.2 dateAlarm).2.day
          = sampleAlarm.day :=
  ⟨by decide,
    (PCF8563_alarm_values_round_trip sampleAlarm dateAlarm (fun _ => 0) (by decide) (by decide)
      (by decide) (by decide) (by decide)).2.2.2.2.1⟩

/-! ## DS3231 square wave and alarm flags (C14, C15) -/

/-- C14 (the code at the failing input): with the Control register at 0x1C, its
power-on value (RS2 and RS1 set), `set_square_wave_freq(F1HZ)` succeeds, leaves
Control at 0x1C because `set_reg_bits` only ORs bits in, and
`get_square_wave_freq` then returns F8KHZ, not F1HZ. Likewise from Control 0x08
(F1KHZ) setting F4KHZ leaves 0x18, which reads back as F8KHZ. From Control 0 the
setter writes `freq << 3` (0x08, 0x10, 0x18) and the frequency reads back as
set. -/
theorem DS3231_square_wave_freq_not_set :
    ((DS3231.set_square_wave_freq regFile (fun _ => 0x1C) DS3231.Rtc3231SquareWaveFreqs.F1HZ).1
        = true
      ∧ (DS3231.set_square_wave_freq regFile (fun _ => 0x1C)
            DS3231.Rtc3231SquareWaveFreqs.F1HZ).2 DS3231.Rtc3231Registers.Control = 0x1C
      ∧ DS3231.get_square_wave_freq regFile
          (DS3231.set_square_wave_freq regFile (fun _ => 0x1C)
            DS3231.Rtc3231SquareWaveFreqs.F1HZ).2
          = (true, DS3231.Rtc3231SquareWaveFreqs.F8KHZ)
      ∧ DS3231.Rtc3231SquareWaveFreqs.F8KHZ ≠ DS3231.Rtc3231SquareWaveFreqs.F1HZ)
    ∧ ((DS3231.set_square_wave_freq regFile (fun _ => 0x08)
            DS3231.Rtc3231SquareWaveFreqs.F4KHZ).2 DS3231.Rtc3231Registers.Control = 0x18
      ∧ DS3231.get_square_wave_freq regFile
          (DS3231.set_square_wave_freq regFile (fun _ => 0x08)
            DS3231.Rtc3231SquareWaveFreqs.F4KHZ).2
          = (true, DS3231.Rtc3231SquareWaveFreqs.F8KHZ)
      ∧ DS3231.Rtc3231SquareWaveFreqs.F8KHZ ≠ DS3231.Rtc3231SquareWaveFreqs.F4KHZ)
    ∧ ((DS3231.set_square_wave_freq regFile (fun _ => 0)
            DS3231.Rtc3231SquareWaveFreqs.F1KHZ).2 DS3231.Rtc3231Registers.Control = 0x08
      ∧ (DS3231.set_square_wave_freq regFile (fun _ => 0)
            DS3231.Rtc3231SquareWaveFreqs.F4KHZ).2 DS3231.Rtc3231Registers.Control = 0x10
      ∧ (DS3231.set_square_wave_freq regFile (fun _ => 0)
            DS3231.Rtc3231SquareWaveFreqs.F8KHZ).2 DS3231.Rtc3231Registers.Control = 0x18
      ∧ DS3231.get_square_wave_freq regFile
          (DS3231.set_square_wave_freq regFile (fun _ => 0)
            DS3231.Rtc3231SquareWaveFreqs.F4KHZ).2
          = (true, DS3231.Rtc3231SquareWaveFreqs.F4KHZ)) := by
  decide

set_option maxRecDepth 100000 in
theorem clear_flag_bits : ∀ v, v < 256 →
    ((v &&& ((DS3231.Rtc3231StatusRegisterBits.A1F ^^^ 0xFF) % 256) = v &&& 0xFE)
      ∧ (v &&& ((DS3231.Rtc3231StatusRegisterBits.A2F ^^^ 0xFF) % 256) = v &&& 0xFD))
    ∧ (decide (((v &&& 0xFE) % 256) &&& DS3231.Rtc3231StatusRegisterBits.A1F ≠ 0) = false
      ∧ decide (((v &&& 0xFD) % 256) &&& DS3231.Rtc3231StatusRegisterBits.A2F ≠ 0) = false) := by
  decide

theorem testBit_ge_8 (v i : Nat) (hv : v < 256) (h8 : ¬ i < 8) : v.testBit i = false := by
  apply Nat.testBit_lt_two_pow
  calc v < 2 ^ 8 := hv
    _ ≤ 2 ^ i := Nat.pow_le_pow_right (by norm_num) (by omega)

theorem testBit_and_FE (v i : Nat) (hv : v < 256) (hi : i ≠ 0) :
    (v &&& 0xFE).testBit i = v.testBit i := by
  have hmask : ∀ j, j < 8 → j ≠ 0 → Nat.testBit 0xFE j = true := by decide
  rw [Nat.testBit_and]
  by_cases h8 : i < 8
  · rw [hmask i h8 hi, Bool.and_true]
  · rw [testBit_ge_8 v i hv h8, Bool.false_and]

theorem testBit_and_FD (v i : Nat) (hv : v < 256) (hi : i ≠ 1) :
    (v &&& 0xFD).testBit i = v.testBit i := by
  have hmask : ∀ j, j < 8 → j ≠ 1 → Nat.testBit 0xFD j = true := by decide
  rw [Nat.testBit_and]
  by_cases h8 : i < 8
  · rw [hmask i h8 hi, Bool.and_true]
  · rw [testBit_ge_8 v i hv h8, Bool.false_and]

/-- C15: for N in 1, 2 and every prior value of the DS3231 Status register, on the
register file `clear_alarmN_flag` succeeds, `is_alarmN_flag_active` then returns
true and reports the flag as false, and every bit of Status other than the AN
flag (bit 0 for A1F, bit 1 for A2F) has the value it had before: the other alarm
flag, BUSY, EN32KHZ and OSF among them. -/
theorem DS3231_clear_alarm_flag (regs : Nat → Nat) :
    ((DS3231.clear_alarm1_flag regFile regs).1 = true
      ∧ DS3231.is_alarm1_flag_active regFile (DS3231.clear_alarm1_flag regFile regs).2
          = (true, false)
      ∧ ∀ i, i ≠ 0 →
          ((DS3231.clear_alarm1_flag regFile regs).2 DS3231.Rtc3231Registers.Status).testBit i
            = (regs DS3231.Rtc3231Registers.Status % 256).testBit i)
    ∧ ((DS3231.clear_alarm2_flag regFile regs).1 = true
      ∧ DS3231.is_alarm2_flag_active regFile (DS3231.clear_alarm2_flag regFile regs).2
          = (true, false)
      ∧ ∀ i, i ≠ 1 →
          ((DS3231.clear_alarm2_flag regFile regs).2 DS3231.Rtc3231Registers.Status).testBit i
            = (regs DS3231.Rtc3231Registers.Status % 256).testBit i) := by
  have hv : regs 15 % 256 < 256 := Nat.mod_lt _ (by norm_num)
  obtain ⟨⟨e1, e2⟩, f1, f2⟩ := clear_flag_bits (regs 15 % 256) hv
  simp only [DS3231.clear_alarm1_flag, DS3231.clear_alarm2_flag, DS3231.is_alarm1_flag_active,
    DS3231.is_alarm2_flag_active, DS3231.clear_reg_bits, DS3231.get_reg, DS3231.set_reg, regFile,
    DS3231.Rtc3231Registers.Status]
  refine ⟨⟨?_, ?_, ?_⟩, ?_, ?_, ?_⟩
  · simp
  · simp [e1, f1]
  · intro i hi
    simp [e1, testBit_and_FE _ i hv hi]
  · simp
  · simp [e2, f2]
  · intro i hi
    simp [e2, testBit_and_FD _ i hv hi]

/-! ## Time strings (C16, C17) -/

/-- C16 (the code at the failing input): at noon, hours_24 = 12, the result of
`get_12hr_time_string` is "0:00:00 PM": its hour field is "0", where the 12-hour
clock value ((12 + 11) mod 12) + 1 is 12; midnight and 13 are rendered as the
claim says. -/
theorem get_12hr_time_string_noon :
    get_12hr_time_string 12 0 0 = "0:00:00 PM"
      ∧ hour_field (get_12hr_time_string 12 0 0) = "0"
      ∧ to_string (((12 + 11) % 12) + 1) = "12"
      ∧ get_12hr_time_string 0 0 0 = "12:00:00 AM"
      ∧ get_12hr_time_string 13 9 0 = "1:09:00 PM" := by
  decide

set_option maxRecDepth 1000000 in
theorem add_colon_zero_padding_two_digits : ∀ t, t < 100 →
    add_colon_zero_padding t = ":" ++ two_digits t := by
  decide

/-- C17: for every hours_24 and every minutes and seconds in 0..99,
`get_24hr_time_string` is the decimal numeral of hours_24, a colon, the minutes as
exactly two zero-padded digits, a colon, and the seconds as exactly two
zero-padded digits. -/
theorem get_24hr_time_string_format (hours_24 minutes seconds : Nat)
    (hm : minutes ≤ 99) (hs : seconds ≤ 99) :
    get_24hr_time_string hours_24 minutes seconds
      = to_string hours_24 ++ ":" ++ two_digits minutes ++ ":" ++ two_digits seconds := by
  unfold get_24hr_time_string
  rw [add_colon_zero_padding_two_digits minutes (by omega),
    add_colon_zero_padding_two_digits seconds (by omega)]
  simp only [String.append_assoc]

theorem get_24hr_time_string_format_witness :
    get_24hr_time_string 13 11 0 = "13:11:00"
      ∧ get_24hr_time_string 13 11 0
          = to_string 13 ++ ":" ++ two_digits 11 ++ ":" ++ two_digits 0 :=
  ⟨by decide, get_24hr_time_string_format 13 11 0 (by decide) (by decide)⟩

/-! ## The event queue (C18, C19) -/

theorem EventQueue_push_all_within {α : Type} (xs : List α) :
    ∀ q : EventQueue α, q.items.length + xs.length ≤ q.capacity →
      q.push_all xs = (List.replicate xs.length true, { q with items := q.items ++ xs }) := by
  induction xs with
  | nil => intro q _; simp [EventQueue.push_all]
  | cons x rest ih =>
    intro q h
    have hlt : q.items.length < q.capacity := by simp at h; omega
    have hstep : q.try_push x = (true, { q with items := q.items ++ [x] }) := by
      simp [EventQueue.try_push, hlt]
    have hrest := ih { q with items := q.items ++ [x] } (by simp at h ⊢; omega)
    simp [EventQueue.push_all, hstep, hrest, List.replicate_succ]

/-- C18: for every queue of capacity C that starts empty, the first C `try_push`
calls all return true and leave the pushed items in the queue; the next
`try_push` returns false and leaves the queue as it was; and after a `try_pop`
that takes an item (which the full queue yields whenever C is positive) a further
`try_push` returns true. -/
theorem EventQueue_try_push_capacity {α : Type} (C : Nat) (xs : List α) (y : α)
    (hlen : xs.length = C) :
    ((EventQueue.new C).push_all xs).1 = List.replicate C true
      ∧ ((EventQueue.new C).push_all xs).2.items = xs
      ∧ ((EventQueue.new C).push_all xs).2.try_push y
          = (false, ((EventQueue.new C).push_all xs).2)
      ∧ (∀ x q1, ((EventQueue.new C).push_all xs).2.try_pop = (some x, q1) →
          (q1.try_push y).1 = true)
      ∧ (0 < C → ∃ x q1, ((EventQueue.new C).push_all xs).2.try_pop = (some x, q1)) := by
  have hfull := EventQueue_push_all_within xs (EventQueue.new C : EventQueue α)
    (by simp [EventQueue.new, hlen])
  rw [hfull]
  subst hlen
  refine ⟨rfl, by simp [EventQueue.new], ?_, ?_, ?_⟩
  · simp [EventQueue.try_push, EventQueue.new]
  · intro x q1 hpop
    cases xs with
    | nil => simp [EventQueue.try_pop, EventQueue.new] at hpop
    | cons a rest =>
      simp [EventQueue.try_pop, EventQueue.new] at hpop
      obtain ⟨-, rfl⟩ := hpop
      simp [EventQueue.try_push]
  · intro hpos
    cases xs with
    | nil => simp at hpos
    | cons a rest => exact ⟨a, _, rfl⟩

theorem EventQueue_try_push_capacity_witness :
    ((EventQueue.new 2).push_all [10, 20]).1 = [true, true]
      ∧ (((EventQueue.new 2).push_all [10, 20]).2.try_push 30).1 = false
      ∧ ((((EventQueue.new 2).push_all [10, 20]).2.try_pop).2.try_push 30).1 = true
      ∧ ((EventQueue.new 2).push_all [10, 20]).2.items = [10, 20] :=
  ⟨by decide, by decide, by decide,
    (EventQueue_try_push_capacity 2 [10, 20] 30 (by decide)).2.1⟩

theorem EventQueue_pop_n_take {α : Type} (n : Nat) :
    ∀ q : EventQueue α, (q.pop_n n).1 = q.items.take n := by
  induction n with
  | zero => intro q; simp [EventQueue.pop_n]
  | succ n ih =>
    intro q
    obtain ⟨cap, items⟩ := q
    cases items with
    | nil => simp [EventQueue.pop_n, EventQueue.try_pop, ih]
    | cons x rest => simp [EventQueue.pop_n, EventQueue.try_pop, ih]

theorem QueueFamily_run_pushes_items {α : Type} (i : Nat) (ops : List (Nat × α)) :
    ∀ qs : QueueFamily α,
      (qs.run_pushes ops i).items = (qs i).items ++ qs.pushed_on i ops := by
  induction ops with
  | nil => intro qs; simp [QueueFamily.run_pushes, QueueFamily.pushed_on]
  | cons op rest ih =>
    intro qs
    simp only [QueueFamily.run_pushes, QueueFamily.pushed_on]
    rw [ih]
    by_cases hi : op.1 = i
    · by_cases hroom : (qs i).items.length < (qs i).capacity
      · simp [QueueFamily.push_on, EventQueue.try_push, hi, hroom]
      · simp [QueueFamily.push_on, EventQueue.try_push, hi, hroom]
    · have hi2 : ¬ i = op.1 := fun h => hi h.symm
      simp [QueueFamily.push_on, hi, hi2]

theorem QueueFamily_pushed_on_congr {α : Type} (i : Nat) (ops : List (Nat × α)) :
    ∀ qs qs2 : QueueFamily α, qs i = qs2 i → qs.pushed_on i ops = qs2.pushed_on i ops := by
  induction ops with
  | nil => intro qs qs2 _; simp [QueueFamily.pushed_on]
  | cons op rest ih =>
    intro qs qs2 h
    simp only [QueueFamily.pushed_on]
    by_cases hi : op.1 = i
    · have hnext : (qs.push_on op.1 op.2).2 i = (qs2.push_on op.1 op.2).2 i := by
        simp [QueueFamily.push_on, hi, h]
      have hres : (qs.push_on op.1 op.2).1 = (qs2.push_on op.1 op.2).1 := by
        simp [QueueFamily.push_on, hi, h]
      rw [ih _ _ hnext, hres]
    · have hi2 : ¬ i = op.1 := fun h => hi h.symm
      have hnext : (qs.push_on op.1 op.2).2 i = (qs2.push_on op.1 op.2).2 i := by
        simp [QueueFamily.push_on, hi2, h]
      simp [hi, ih _ _ hnext]

theorem QueueFamily_pushed_on_filter {α : Type} (i : Nat) (ops : List (Nat × α)) :
    ∀ qs : QueueFamily α,
      qs.pushed_on i ops = qs.pushed_on i (ops.filter (fun op => decide (op.1 = i))) := by
  induction ops with
  | nil => intro qs; rfl
  | cons op rest ih =>
    intro qs
    by_cases hi : op.1 = i
    · simp only [List.filter_cons, hi, decide_True, if_true, QueueFamily.pushed_on]
      rw [ih]
    · have hi2 : ¬ i = op.1 := fun h => hi h.symm
      have hsame : (qs.push_on op.1 op.2).2 i = qs i := by
        simp [QueueFamily.push_on, hi2]
      simp only [List.filter_cons, hi, decide_False, QueueFamily.pushed_on]
      simp only [false_and, if_false, Bool.false_eq_true]
      rw [QueueFamily_pushed_on_congr i rest _ qs hsame, ih]

/-- C19: FIFO order. For every family of queues, every queue i of it and every
sequence of pushes on the queues of the family, the items pushed successfully on
queue i are exactly what successive `try_pop` calls on queue i return afterwards,
in the order they were pushed (after the items queue i held before, if any); and
these items are the same when the pushes on the other queues are left out. -/
theorem EventQueue_fifo_order {α : Type} (qs : QueueFamily α) (i : Nat)
    (ops : List (Nat × α)) :
    ((qs.run_pushes ops i).pop_n ((qs i).items.length + (qs.pushed_on i ops).length)).1
        = (qs i).items ++ qs.pushed_on i ops
      ∧ ((qs i).items = [] →
          ((qs.run_pushes ops i).pop_n (qs.pushed_on i ops).length).1 = qs.pushed_on i ops)
      ∧ qs.pushed_on i ops = qs.pushed_on i (ops.filter (fun op => decide (op.1 = i)))
      ∧ (qs.run_pushes ops i).items
          = (qs.run_pushes (ops.filter (fun op => decide (op.1 = i))) i).items := by
  have hitems := QueueFamily_run_pushes_items i ops qs
  refine ⟨?_, ?_, QueueFamily_pushed_on_filter i ops qs, ?_⟩
  · rw [EventQueue_pop_n_take, hitems, ← List.length_append, List.take_length]
  · intro hempty
    rw [EventQueue_pop_n_take, hitems, hempty, List.nil_append, List.take_length]
  · rw [hitems, QueueFamily_run_pushes_items, ← QueueFamily_pushed_on_filter]

/-! ## Registration with the task runner (C20) -/

theorem TaskRunner_register_queue_nodup (t : TaskRunner) (queue : Nat)
    (hinv : t.queues.Nodup) : (t.register_queue queue).2.queues.Nodup := by
  unfold TaskRunner.register_queue
  by_cases herr : t.registration_errors queue = []
  · have hnew : queue ∉ t.queues := by
      intro hmem
      simp [TaskRunner.registration_errors, hmem] at herr
    simp only [herr, if_true]
    exact List.Nodup.append hinv (List.nodup_singleton _) (by simpa using hnew)
  · simpa [herr] using hinv

/-- C20: registering with a task runner a queue that is already registered with it
fails with DuplicateRegistration and leaves the runner, and so its set of
registered queues, unchanged; under the invariant that no queue identity is
registered twice (which holds for a new runner and is kept by every
registration) the queue stays registered exactly once. -/
theorem TaskRunner_duplicate_registration (t : TaskRunner) (queue : Nat)
    (hreg : queue ∈ t.queues) :
    (t.register_queue queue).1 ≠ []
      ∧ RegistrationError.DuplicateRegistration ∈ (t.register_queue queue).1
      ∧ (t.register_queue queue).2 = t
      ∧ (t.queues.Nodup → (t.register_queue queue).2.queues.count queue = 1)
      ∧ (TaskRunner.new t.max_members).queues.Nodup
      ∧ (∀ other : Nat, t.queues.Nodup → (t.register_queue other).2.queues.Nodup) := by
  have hdup : RegistrationError.DuplicateRegistration ∈ t.registration_errors queue := by
    simp [TaskRunner.registration_errors, hreg]
  have hne : t.registration_errors queue ≠ [] := List.ne_nil_of_mem hdup
  have hres : t.register_queue queue = (t.registration_errors queue, t) := by
    simp [TaskRunner.register_queue, hne]
  rw [hres]
  refine ⟨hne, hdup, rfl, ?_, by simp [TaskRunner.new], ?_⟩
  · intro hinv
    exact List.count_eq_one_of_mem hinv hreg
  · intro other hinv
    exact TaskRunner_register_queue_nodup t other hinv

theorem TaskRunner_duplicate_registration_witness :
    ((TaskRunner.new 3).register_queue 7).1 = []
      ∧ (((TaskRunner.new 3).register_queue 7).2.register_queue 7).1
          = [RegistrationError.DuplicateRegistration]
      ∧ (((TaskRunner.new 3).register_queue 7).2.register_queue 7).2
          = ((TaskRunner.new 3).register_queue 7).2 :=
  ⟨by decide, by decide,
    (TaskRunner_duplicate_registration ((TaskRunner.new 3).register_queue 7).2 7
      (by decide)).2.2.1⟩

/-! ## Registration after start (C21) -/

/-- C21: registering a queue with a task runner whose `start()` has already been
called (a runner that is no longer in NotStarted, as the runner that `start()`
returns is) fails with RegistrationAfterStart and leaves the runner, and so its
set of registered queues, unchanged. -/
theorem TaskRunner_registration_after_start (t : TaskRunner) (queue : Nat)
    (hstarted : t.state ≠ RunnerState.NotStarted) :
    (t.register_queue queue).1 ≠ []
      ∧ RegistrationError.RegistrationAfterStart ∈ (t.register_queue queue).1
      ∧ (t.register_queue queue).2 = t
      ∧ (t.register_queue queue).2.queues = t.queues
      ∧ (∀ t0 t1 : TaskRunner, t0.start = some t1 →
          t1.state ≠ RunnerState.NotStarted ∧ t1.queues = t0.queues
            ∧ RegistrationError.RegistrationAfterStart ∈ (t1.register_queue queue).1
            ∧ (t1.register_queue queue).2 = t1) := by
  have key : ∀ r : TaskRunner, r.state ≠ RunnerState.NotStarted →
      RegistrationError.RegistrationAfterStart ∈ (r.register_queue queue).1
        ∧ (r.register_queue queue).2 = r := by
    intro r hr
    have hmem : RegistrationError.RegistrationAfterStart ∈ r.registration_errors queue := by
      simp [TaskRunner.registration_errors, hr]
    have hne : r.registration_errors queue ≠ [] := List.ne_nil_of_mem hmem
    have hres : r.register_queue queue = (r.registration_errors queue, r) := by
      simp [TaskRunner.register_queue, hne]
    rw [hres]
    exact ⟨hmem, rfl⟩
  obtain ⟨h1, h2⟩ := key t hstarted
  refine ⟨List.ne_nil_of_mem h1, h1, h2, by rw [h2], ?_⟩
  intro t0 t1 hst
  unfold TaskRunner.start at hst
  by_cases h0 : t0.state = RunnerState.NotStarted
  · simp only [h0, if_true, Option.some.injEq] at hst
    subst hst
    have hrun : ({ t0 with state := RunnerState.Running } : TaskRunner).state
        ≠ RunnerState.NotStarted := by simp
    exact ⟨hrun, rfl, key _ hrun⟩
  · simp [h0] at hst

theorem TaskRunner_registration_after_start_witness :
    ((TaskRunner.new 3).register_queue 7).2.start = some startedRunner
      ∧ (startedRunner.register_queue 8).1 = [RegistrationError.RegistrationAfterStart]
      ∧ (startedRunner.register_queue 8).2 = startedRunner :=
  ⟨by decide, by decide,
    (TaskRunner_registration_after_start startedRunner 8 (by decide)).2.2.1⟩

/-! ## One iteration of the run loop (C22) -/

/-- C22: in every iteration of the run loop, whatever the runner and its queues,
`tick()` is invoked exactly when the wait returned by timeout, and then it is the
only thing invoked and no queue changes; when the wait returned because a member
is signalled (a registered queue that holds an item), exactly one item, the
oldest, is taken from that queue and forwarded to its handler, the other queues
are untouched and `tick()` is not invoked. -/
theorem TaskRunner_iteration_tick_or_dispatch {α : Type} (t : TaskRunner)
    (qs : QueueFamily α) (w : WaitResult) (hw : t.wait_possible qs w) :
    (LoopEvent.Tick ∈ (t.iteration qs w).1 ↔ w = WaitResult.Timeout)
      ∧ (w = WaitResult.Timeout →
          (t.iteration qs w).1 = [LoopEvent.Tick] ∧ (t.iteration qs w).2 = qs)
      ∧ (∀ queue, w = WaitResult.Signalled queue →
          ∃ item,
            (qs queue).items = item :: ((t.iteration qs w).2 queue).items
              ∧ (t.iteration qs w).1 = [LoopEvent.Dispatch queue item]
              ∧ (∀ j, j ≠ queue → (t.iteration qs w).2 j = qs j)
              ∧ LoopEvent.Tick ∉ (t.iteration qs w).1) := by
  cases w with
  | Timeout => simp [TaskRunner.iteration]
  | Signalled q =>
    obtain ⟨-, hne⟩ := hw
    rcases hq : qs q with ⟨cap, _ | ⟨x, rest⟩⟩
    · simp [hq] at hne
    · refine ⟨?_, ?_, ?_⟩
      · simp [TaskRunner.iteration, EventQueue.try_pop, hq]
      · intro h; cases h
      · intro queue hqueue
        cases hqueue
        refine ⟨x, ?_, ?_, ?_, ?_⟩
        · simp [TaskRunner.iteration, EventQueue.try_pop, hq]
        · simp [TaskRunner.iteration, EventQueue.try_pop, hq]
        · intro j hj
          simp [TaskRunner.iteration, EventQueue.try_pop, hq, hj]
        · simp [TaskRunner.iteration, EventQueue.try_pop, hq]

theorem TaskRunner_iteration_tick_or_dispatch_witness :
    (startedRunner.iteration sampleQueues (WaitResult.Signalled 7)).1
        = [LoopEvent.Dispatch 7 10]
      ∧ ((startedRunner.iteration sampleQueues (WaitResult.Signalled 7)).2 7).items = [20]
      ∧ (LoopEvent.Tick ∈ (startedRunner.iteration sampleQueues (WaitResult.Signalled 7)).1
          ↔ WaitResult.Signalled 7 = WaitResult.Timeout) :=
  ⟨by decide, by decide,
    (TaskRunner_iteration_tick_or_dispatch startedRunner sampleQueues (WaitResult.Signalled 7)
      ⟨by decide, by decide⟩).1⟩

/-! ## Decoded weekday and month as indices (C23) -/

/-- C23 (the code at the failing input): with the day-of-week register at 7 and
the month register at 0x12, values the chip itself counts up to, both reads
succeeding and the oscillator-stop flag clear, `DS3231::get_rtc_time` returns
true with weekday 7 and month 12, which lie outside Sunday..Saturday and
January..December: `DayOfWeekStrings` has 7 entries and `MonthStrings` 12, so
neither has an entry at that index. -/
theorem DS3231_get_rtc_time_index_out_of_bounds :
    (DS3231.get_rtc_time regFile decemberRegs sampleTime).1 = true
      ∧ (DS3231.get_rtc_time regFile decemberRegs sampleTime).2.weekdays = 7
      ∧ (DS3231.get_rtc_time regFile decemberRegs sampleTime).2.months = 12
      ∧ DayOfWeek.Saturday < (DS3231.get_rtc_time regFile decemberRegs sampleTime).2.weekdays
      ∧ Month.December < (DS3231.get_rtc_time regFile decemberRegs sampleTime).2.months
      ∧ DayOfWeekStrings.length = 7 ∧ MonthStrings.length = 12
      ∧ DayOfWeekStrings[(DS3231.get_rtc_time regFile decemberRegs sampleTime).2.weekdays]?
          = none
      ∧ MonthStrings[(DS3231.get_rtc_time regFile decemberRegs sampleTime).2.months]?
          = none := by
  decide

/-! ## The seconds, minutes and hours bytes of alarm 1 (C24) -/

set_option maxRecDepth 100000 in
theorem alarm_byte_bits : ∀ d, d < 60 → ∀ e : Bool,
    ((decimal_to_bcd d ||| (if e then 0x00 else 0x80)) % 256).testBit 7 = !e
      ∧ ((decimal_to_bcd d ||| (if e then 0x00 else 0x80)) % 256) &&& 0x7F
          = decimal_to_bcd d := by
  decide

theorem DS3231_get_alarm1_time_fields (regs : Nat → Nat) (a0 : AlarmTime) :
    (DS3231.get_alarm1_time regFile regs a0).1 = true
      ∧ (DS3231.get_alarm1_time regFile regs a0).2.second = bcd_to_decimal (regs 7 &&& 0x7F)
      ∧ (DS3231.get_alarm1_time regFile regs a0).2.minute = bcd_to_decimal (regs 8 &&& 0x7F)
      ∧ (DS3231.get_alarm1_time regFile regs a0).2.hour24 = bcd_to_decimal (regs 9 &&& 0x3F)
      ∧ (DS3231.get_alarm1_time regFile regs a0).2.ena_alrm_second
          = decide ((regs 7 ^^^ 0xFF) &&& 0x80 ≠ 0)
      ∧ (DS3231.get_alarm1_time regFile regs a0).2.ena_alrm_minute
          = decide ((regs 8 ^^^ 0xFF) &&& 0x80 ≠ 0)
      ∧ (DS3231.get_alarm1_time regFile regs a0).2.ena_alrm_hour
          = decide ((regs 9 ^^^ 0xFF) &&& 0x80 ≠ 0) := by
  simp only [DS3231.get_alarm1_time, regFile, DS3231.Rtc3231Registers.SecondsAlarm1]
  by_cases hb : regs (7 + 3) &&& 0x40 = 0
  · simp [hb]
  · simp [hb]

theorem DS3231_set_alarm1_time_regs (regs : Nat → Nat) (a : AlarmTime) :
    (DS3231.set_alarm1_time regFile regs a).2.2 7
        = (decimal_to_bcd (validate_time a.second 0 59)
            ||| (if a.ena_alrm_second then 0x00 else 0x80)) % 256
      ∧ (DS3231.set_alarm1_time regFile regs a).2.2 8
        = (decimal_to_bcd (validate_time a.minute 0 59)
            ||| (if a.ena_alrm_minute then 0x00 else 0x80)) % 256
      ∧ (DS3231.set_alarm1_time regFile regs a).2.2 9
        = (decimal_to_bcd (validate_time a.hour24 0 23)
            ||| (if a.ena_alrm_hour then 0x00 else 0x80)) % 256 := by
  simp [DS3231.set_alarm1_time, regFile, DS3231.Rtc3231Registers.SecondsAlarm1]

/-- C24: for every AlarmTime a with second ≤ 59, minute ≤ 59 and hour24 ≤ 23
(whatever its day, weekday and flags), in the bytes `set_alarm1_time(a)` writes
for seconds, minutes and hours (registers 7, 8 and 9 of the register file) bit 7
is set exactly when the corresponding enable flag is false and the remaining
bits are the BCD of the value; and `get_alarm1_time` on the bytes written returns
true with second, minute, hour24 and their three enable flags equal to those of
a, whatever the caller's AlarmTime held before. -/
theorem DS3231_alarm1_time_bytes (a a0 : AlarmTime) (regs : Nat → Nat)
    (hs : a.second ≤ 59) (hm : a.minute ≤ 59) (hh : a.hour24 ≤ 23) :
    ((((DS3231.set_alarm1_time regFile regs a).2.2 7).testBit 7 = !a.ena_alrm_second
        ∧ (DS3231.set_alarm1_time regFile regs a).2.2 7 &&& 0x7F = decimal_to_bcd a.second)
      ∧ (((DS3231.set_alarm1_time regFile regs a).2.2 8).testBit 7 = !a.ena_alrm_minute
        ∧ (DS3231.set_alarm1_time regFile regs a).2.2 8 &&& 0x7F = decimal_to_bcd a.minute)
      ∧ (((DS3231.set_alarm1_time regFile regs a).2.2 9).testBit 7 = !a.ena_alrm_hour
        ∧ (DS3231.set_alarm1_time regFile regs a).2.2 9 &&& 0x7F = decimal_to_bcd a.hour24))
    ∧ (DS3231.get_alarm1_time regFile (DS3231.set_alarm1_time regFile regs a).2.2 a0).1 = true
    ∧ (DS3231.get_alarm1_time regFile (DS3231.set_alarm1_time regFile regs a).2.2 a0).2.second
        = a.second
    ∧ (DS3231.get_alarm1_time regFile (DS3231.set_alarm1_time regFile regs a).2.2 a0).2.minute
        = a.minute
    ∧ (DS3231.get_alarm1_time regFile (DS3231.set_alarm1_time regFile regs a).2.2 a0).2.hour24
        = a.hour24
    ∧ (DS3231.get_alarm1_time regFile
          (DS3231.set_alarm1_time regFile regs a).2.2 a0).2.ena_alrm_second = a.ena_alrm_second
    ∧ (DS3231.get_alarm1_time regFile
          (DS3231.set_alarm1_time regFile regs a).2.2 a0).2.ena_alrm_minute = a.ena_alrm_minute
    ∧ (DS3231.get_alarm1_time regFile
          (DS3231.set_alarm1_time regFile regs a).2.2 a0).2.ena_alrm_hour = a.ena_alrm_hour := by
  obtain ⟨bs1, bs2⟩ := alarm_byte_bits a.second (by omega) a.ena_alrm_second
  obtain ⟨bm1, bm2⟩ := alarm_byte_bits a.minute (by omega) a.ena_alrm_minute
  obtain ⟨bh1, bh2⟩ := alarm_byte_bits a.hour24 (by omega) a.ena_alrm_hour
  obtain ⟨s1, s2, -⟩ := alarm_byte_7F a.second (by omega) a.ena_alrm_second
  obtain ⟨m1, m2, -⟩ := alarm_byte_7F a.minute (by omega) a.ena_alrm_minute
  obtain ⟨h1, h2, -⟩ := alarm_byte_3F a.hour24 (by omega) a.ena_alrm_hour
  have vs := validate_time_id a.second 0 59 (Nat.zero_le _) hs
  have vm := validate_time_id a.minute 0 59 (Nat.zero_le _) hm
  have vh := validate_time_id a.hour24 0 23 (Nat.zero_le _) hh
  obtain ⟨r7, r8, r9⟩ := DS3231_set_alarm1_time_regs regs a
  rw [vs] at r7
  rw [vm] at r8
  rw [vh] at r9
  obtain ⟨g0, g1, g2, g3, g4, g5, g6⟩ :=
    DS3231_get_alarm1_time_fields (DS3231.set_alarm1_time regFile regs a).2.2 a0
  rw [r7] at g1 g4
  rw [r8] at g2 g5
  rw [r9] at g3 g6
  rw [r7, r8, r9]
  exact ⟨⟨⟨bs1, bs2⟩, ⟨bm1, bm2⟩, ⟨bh1, bh2⟩⟩, g0, g1.trans s1, g2.trans m1, g3.trans h1,
    g4.trans s2, g5.trans m2, g6.trans h2⟩

theorem DS3231_alarm1_time_bytes_witness :
    (DS3231.set_alarm1_time regFile (fun _ => 0) sampleAlarm).2.2 7 = 0x10
      ∧ (DS3231.set_alarm1_time regFile (fun _ => 0) sampleAlarm).2.2 8 = 0x92
      ∧ (DS3231.set_alarm1_time regFile (fun _ => 0) sampleAlarm).2.2 9 = 0x93
      ∧ (DS3231.get_alarm1_time regFile
          (DS3231.set_alarm1_time regFile (fun _ => 0) sampleAlarm).2.2 dateAlarm).1 = true :=
  ⟨by decide, by decide, by decide,
    (DS3231_alarm1_time_bytes sampleAlarm dateAlarm (fun _ => 0) (by decide) (by decide)
      (by decide)).2.1⟩

/-! ## The tick sequence of the L289N test application (C25) -/

theorem l289n_after_ticks_state (m : L289N) (n : Nat) :
    (l289n_test.App.after_ticks m n).count = n % 256
      ∧ (l289n_test.App.after_ticks m n).direction
          = if n % 4 = 1 ∨ n % 4 = 2 then 1 else 0 := by
  induction n with
  | zero => simp [l289n_test.App.after_ticks, l289n_test.App.initial]
  | succ n ih =>
    obtain ⟨hc, hd⟩ := ih
    have hpar : (n % 256) % 2 = n % 2 := by omega
    simp only [l289n_test.App.after_ticks, l289n_test.App.tick, hc, hd, hpar]
    have h4 : n % 4 = 0 ∨ n % 4 = 1 ∨ n % 4 = 2 ∨ n % 4 = 3 := by omega
    rcases h4 with h | h | h | h
    · have h2 : n % 2 = 0 := by omega
      have e : (n + 1) % 4 = 1 := by omega
      simp [h, h2, e]
    · have h2 : ¬ n % 2 = 0 := by omega
      have e : (n + 1) % 4 = 2 := by omega
      simp [h, h2, e]
    · have h2 : n % 2 = 0 := by omega
      have e : (n + 1) % 4 = 3 := by omega
      simp [h, h2, e]
    · have h2 : ¬ n % 2 = 0 := by omega
      have e : (n + 1) % 4 = 0 := by omega
      simp [h, h2, e]

/-- C25: l289n_test tick sequence. For every n ≥ 0 and whatever the outputs were at
construction, when the n-th tick (counting from 0) runs the 8-bit count is
n mod 256; if n is even the tick starts the motor, with direction 1 when
n mod 4 = 0 and direction 0 when n mod 4 = 2, after which the enable pin is high
and exactly one direction pin is high (in1 for direction 1, in2 for direction 0);
if n is odd the tick stops the motor, after which all three outputs are low. -/
theorem l289n_tick_sequence (m : L289N) (n : Nat) :
    (l289n_test.App.after_ticks m n).count = n % 256
      ∧ (n % 2 = 0 →
          (l289n_test.App.after_ticks m (n + 1)).l289n
              = (l289n_test.App.after_ticks m n).l289n.start (if n % 4 = 0 then 1 else 0) 1
            ∧ (l289n_test.App.after_ticks m (n + 1)).direction = (if n % 4 = 0 then 1 else 0)
            ∧ (l289n_test.App.after_ticks m (n + 1)).l289n.en_pin = true
            ∧ (l289n_test.App.after_ticks m (n + 1)).l289n.in1_pin = decide (n % 4 = 0)
            ∧ (l289n_test.App.after_ticks m (n + 1)).l289n.in2_pin = decide (n % 4 = 2))
      ∧ (n % 2 = 1 →
          (l289n_test.App.after_ticks m (n + 1)).l289n
              = (l289n_test.App.after_ticks m n).l289n.stop
            ∧ (l289n_test.App.after_ticks m (n + 1)).l289n.en_pin = false
            ∧ (l289n_test.App.after_ticks m (n + 1)).l289n.in1_pin = false
            ∧ (l289n_test.App.after_ticks m (n + 1)).l289n.in2_pin = false) := by
  obtain ⟨hc, hd⟩ := l289n_after_ticks_state m n
  have hpar : (n % 256) % 2 = n % 2 := by omega
  refine ⟨hc, ?_, ?_⟩
  · intro heven
    have h4 : n % 4 = 0 ∨ n % 4 = 2 := by omega
    simp only [l289n_test.App.after_ticks, l289n_test.App.tick, hc, hd, hpar, heven]
    rcases h4 with h | h
    · simp [h, L289N.start]
    · simp [h, L289N.start]
  · intro hodd
    have hne : ¬ n % 2 = 0 := by omega
    simp only [l289n_test.App.after_ticks, l289n_test.App.tick, hc, hd, hpar, hne]
    simp [L289N.stop]

/-! ## The life cycle of the task runner (C26) -/

end Smooth
